import Mathlib

/-!
# PersistentVolumeClaim registry strategies

A shallow embedding of `pkg/registry/core/persistentvolumeclaim/strategy.go`:
the create, update, status-update and storage-class-update strategies of the
claim registry, and the update validation of the storage-class subresource;
and of the audit filter `WithDDOGAudits` of
`apiserver/pkg/endpoints/filters/ddog.go`.

Go code that mutates its arguments through pointers is written as a function
that returns the values after the call.  Process-wide feature gates are an
explicit `FeatureGates` argument.  Library validators the strategies call but
do not define are fields of `Externals`.
-/

namespace K8s

/-! ## Data model (`pkg/apis/core`, `apimachinery`) -/

/-- Modelled from the spec: `resource.Quantity` (apimachinery) is "a quantity
with comparison semantics".  `value` is the number the quantity denotes, as a
whole number of the finest unit in use (bytes, for storage); `format` is the
notation it is printed in, which comparison ignores.  The Go zero value is `value = 0`, `format = ""`. -/
structure Quantity where
  value : Int
  format : String
deriving DecidableEq

/-- The Go zero value `resource.Quantity{}`: what indexing a map yields for a
missing key, and what indexing a nil map yields. -/
def Quantity.zero : Quantity := { value := 0, format := "" }

/-- Modelled from the spec: `Quantity.Cmp` orders quantities by the number they
denote and returns -1, 0 or 1. -/
def Quantity.Cmp (q y : Quantity) : Int :=
  if q.value < y.value then -1 else if q.value = y.value then 0 else 1

/-- A Go map with string keys: `none` is the nil map, `some es` a non-nil map
whose entries are `es`; a key is bound to the first entry that carries it. -/
abbrev GoMap (β : Type) := Option (List (String × β))

/-- Entries of a map; the nil map has none. -/
def GoMap.entries {β : Type} : GoMap β → List (String × β)
  | none => []
  | some es => es

/-- Comma-ok lookup `v, ok := m[k]` on the entries. -/
def lookupEntry {β : Type} (k : String) : List (String × β) → Option β
  | [] => none
  | (k1, v) :: t => if k1 = k then some v else lookupEntry k t

/-- Go indexing `m[k]`: the zero value when the map is nil or the key is missing. -/
def GoMap.index {β : Type} (m : GoMap β) (k : String) (zero : β) : β :=
  (lookupEntry k m.entries).getD zero

/-- Go assignment `m[k] = v` on the entries of a non-nil map: the binding of
`k` is replaced where it stands, or added when `k` is not bound. -/
def assignEntry {β : Type} (k : String) (v : β) : List (String × β) → List (String × β)
  | [] => [(k, v)]
  | (k1, v1) :: t => if k1 = k then (k, v) :: t else (k1, v1) :: assignEntry k v t

/-- Modelled from the spec: `apiequality.Semantic.DeepEqual` on two maps.  A nil
map and an empty map are equal; otherwise both bind the same keys, to values
that are equal under `eqv`. -/
def GoMap.semanticEq {β : Type} (eqv : β → β → Bool) (a b : GoMap β) : Bool :=
  (a.entries.all fun e =>
      match lookupEntry e.1 a.entries, lookupEntry e.1 b.entries with
      | some x, some y => eqv x y
      | _, _ => false) &&
  (b.entries.all fun e => (lookupEntry e.1 a.entries).isSome)

/-- Modelled from the spec: `Semantic.DeepEqual` on quantities is `Cmp == 0`,
so two notations of the same number are equal. -/
def Quantity.semanticEq (a b : Quantity) : Bool := decide (a.Cmp b = 0)

/-- The type `api.ResourceList`, a `map[ResourceName]resource.Quantity`. -/
abbrev ResourceList := GoMap Quantity

/-- The constant `api.ResourceStorage`. -/
def ResourceStorage : String := "storage"

/-- The constant `api.ClaimBound` of `PersistentVolumeClaimPhase` (a string type). -/
def ClaimBound : String := "Bound"

/-- The constant `api.ClaimPending`. -/
def ClaimPending : String := "Pending"

/-- The struct `metav1.TypeMeta`. -/
structure TypeMeta where
  Kind : String
  APIVersion : String
deriving DecidableEq

/-- Modelled from the spec: `metav1.ObjectMeta`, the identity of a record
(name, namespace, resource version, labels). -/
structure ObjectMeta where
  Name : String
  Namespace : String
  ResourceVersion : String
  Labels : GoMap String
deriving DecidableEq

/-- The struct `metav1.LabelSelectorRequirement`. -/
structure LabelSelectorRequirement where
  Key : String
  Operator : String
  Values : List String
deriving DecidableEq

/-- The struct `metav1.LabelSelector`. -/
structure LabelSelector where
  MatchLabels : GoMap String
  MatchExpressions : List LabelSelectorRequirement
deriving DecidableEq

/-- The struct `api.VolumeResourceRequirements`. -/
structure VolumeResourceRequirements where
  Limits : ResourceList
  Requests : ResourceList
deriving DecidableEq

/-- The struct `api.TypedLocalObjectReference`, the legacy data source. -/
structure TypedLocalObjectReference where
  APIGroup : Option String
  Kind : String
  Name : String
deriving DecidableEq

/-- The struct `api.TypedObjectReference`, the general data source reference. -/
structure TypedObjectReference where
  APIGroup : Option String
  Kind : String
  Name : String
  Namespace : Option String
deriving DecidableEq

/-- The struct `api.PersistentVolumeClaimSpec`.  Pointer fields are `Option`s,
slices are lists (Go does not tell a nil slice from an empty one by content, and
neither does `Semantic.DeepEqual`). -/
structure PersistentVolumeClaimSpec where
  AccessModes : List String
  Selector : Option LabelSelector
  Resources : VolumeResourceRequirements
  VolumeName : String
  StorageClassName : Option String
  VolumeMode : Option String
  DataSource : Option TypedLocalObjectReference
  DataSourceRef : Option TypedObjectReference
  VolumeAttributesClassName : Option String
deriving DecidableEq

/-- The struct `api.PersistentVolumeClaimCondition`. -/
structure PersistentVolumeClaimCondition where
  CondType : String
  Status : String
  Reason : String
  Message : String
deriving DecidableEq

/-- The struct `api.ModifyVolumeStatus`. -/
structure ModifyVolumeStatus where
  TargetVolumeAttributesClassName : String
  Status : String
deriving DecidableEq

/-- The struct `api.PersistentVolumeClaimStatus`. -/
structure PersistentVolumeClaimStatus where
  Phase : String
  AccessModes : List String
  Capacity : ResourceList
  Conditions : List PersistentVolumeClaimCondition
  AllocatedResources : ResourceList
  AllocatedResourceStatuses : GoMap String
  CurrentVolumeAttributesClassName : Option String
  ModifyVolumeStatus : Option ModifyVolumeStatus
deriving DecidableEq

/-- The empty status `api.PersistentVolumeClaimStatus{}`: every field at its Go
zero value. -/
def PersistentVolumeClaimStatus.empty : PersistentVolumeClaimStatus :=
  { Phase := "", AccessModes := [], Capacity := none, Conditions := [],
    AllocatedResources := none, AllocatedResourceStatuses := none,
    CurrentVolumeAttributesClassName := none, ModifyVolumeStatus := none }

/-- The struct `api.PersistentVolumeClaim`, the claim record. -/
structure PersistentVolumeClaim where
  TypeMeta : TypeMeta
  ObjectMeta : ObjectMeta
  Spec : PersistentVolumeClaimSpec
  Status : PersistentVolumeClaimStatus
deriving DecidableEq

/-- Modelled from the spec: `Semantic.DeepEqual` on two label selectors. -/
def LabelSelector.semanticEq (a b : LabelSelector) : Bool :=
  GoMap.semanticEq (fun x y => decide (x = y)) a.MatchLabels b.MatchLabels &&
  decide (a.MatchExpressions = b.MatchExpressions)

/-- Modelled from the spec: `Semantic.DeepEqual` on two pointers: both nil, or
both set and pointing at equal values. -/
def semanticEqPtr {α : Type} (eqv : α → α → Bool) : Option α → Option α → Bool
  | none, none => true
  | some x, some y => eqv x y
  | _, _ => false

/-- Modelled from the spec: `apiequality.Semantic.DeepEqual` on two claim specs,
the "structural" comparison of the immutability check.  Fields are compared one
by one; quantities by `Cmp`, nil and empty maps alike. -/
def PersistentVolumeClaimSpec.semanticEq (a b : PersistentVolumeClaimSpec) : Bool :=
  decide (a.AccessModes = b.AccessModes) &&
  semanticEqPtr LabelSelector.semanticEq a.Selector b.Selector &&
  GoMap.semanticEq Quantity.semanticEq a.Resources.Limits b.Resources.Limits &&
  GoMap.semanticEq Quantity.semanticEq a.Resources.Requests b.Resources.Requests &&
  decide (a.VolumeName = b.VolumeName) &&
  decide (a.StorageClassName = b.StorageClassName) &&
  decide (a.VolumeMode = b.VolumeMode) &&
  decide (a.DataSource = b.DataSource) &&
  decide (a.DataSourceRef = b.DataSourceRef) &&
  decide (a.VolumeAttributesClassName = b.VolumeAttributesClassName)

/-! ## Field errors (`apimachinery/pkg/util/validation/field`) -/

/-- The type `field.ErrorType`. -/
inductive ErrorType where
  | ErrorTypeNotFound
  | ErrorTypeRequired
  | ErrorTypeDuplicate
  | ErrorTypeInvalid
  | ErrorTypeNotSupported
  | ErrorTypeForbidden
  | ErrorTypeTooLong
  | ErrorTypeTooMany
  | ErrorTypeInternal
  | ErrorTypeTypeInvalid
deriving DecidableEq

/-- A `field.Path` as the list of its segments, root first; its `String()` is
the segments joined by dots. -/
abbrev Path := List String

/-- The constructor `field.NewPath(name, moreNames...)`. -/
def NewPath (name : String) (moreNames : List String) : Path := name :: moreNames

/-- The struct `field.Error`: the kind of the error, the path of the field and
the detail message (the offending value, an `interface{}`, is left out). -/
structure FieldError where
  ErrType : ErrorType
  Field : Path
  Detail : String
deriving DecidableEq

/-- The type `field.ErrorList`. -/
abbrev ErrorList := List FieldError

/-- The constructor `field.Forbidden(path, detail)`. -/
def Forbidden (fldPath : Path) (detail : String) : FieldError :=
  { ErrType := .ErrorTypeForbidden, Field := fldPath, Detail := detail }

/-- The constructor `field.Invalid(path, value, detail)`; the offending value is
left out, as in `FieldError`. -/
def Invalid (fldPath : Path) (detail : String) : FieldError :=
  { ErrType := .ErrorTypeInvalid, Field := fldPath, Detail := detail }

/-! ## Feature gates and collaborators that are not part of the strategies -/

/-- The feature gates `utilfeature.DefaultFeatureGate` is asked for, as read at
the time of the call. -/
structure FeatureGates where
  AnyVolumeDataSource : Bool
  CrossNamespaceVolumeDataSource : Bool
  VolumeAttributesClass : Bool
  RecoverVolumeExpansionFailure : Bool
deriving DecidableEq

/-- The struct `validation.PersistentVolumeClaimSpecValidationOptions`, with the
two options the strategies read. -/
structure PersistentVolumeClaimSpecValidationOptions where
  EnableRecoverFromExpansionFailure : Bool
  EnableVolumeAttributesClass : Bool
deriving DecidableEq

/-- Functions of `pkg/apis/core/validation`, `apimachinery` and `go-cmp` that the
strategies call and that are defined elsewhere: the computation of the
validation options, the generic claim validator, the metadata-update validator
(given the path it reports under) and the textual diff of two specs. -/
structure Externals where
  ValidationOptionsForPersistentVolumeClaim :
    PersistentVolumeClaim → Option PersistentVolumeClaim →
      PersistentVolumeClaimSpecValidationOptions
  ValidatePersistentVolumeClaim :
    PersistentVolumeClaim → PersistentVolumeClaimSpecValidationOptions → ErrorList
  ValidateObjectMetaUpdate : ObjectMeta → ObjectMeta → Path → ErrorList
  cmpDiff : PersistentVolumeClaimSpec → PersistentVolumeClaimSpec → String

/-- The function `validation.ValidateImmutableField`, which is not part of the
strategy file: the helper of apimachinery reports
`field.Invalid(fldPath, newVal, "field is immutable")`, one error of type
Invalid at the given path, when the two values are not semantically equal, and
no error when they are. -/
def ValidateImmutableField (newVal oldVal : Option String) (fldPath : Path) : ErrorList :=
  if semanticEqPtr (fun x y => decide (x = y)) oldVal newVal then []
  else [Invalid fldPath "field is immutable"]

/-! ## Helpers of `pkg/api/persistentvolumeclaim` (pvcutil) -/

/-- Modelled from the spec: `dataSourceInUse`, whether the old spec (when there
is one) sets either reference field. -/
def dataSourceInUse : Option PersistentVolumeClaimSpec → Bool
  | none => false
  | some old => old.DataSource.isSome || old.DataSourceRef.isSome

/-- Modelled from the spec: `dataSourceRefInUse`, whether the old spec (when
there is one) sets `DataSourceRef`. -/
def dataSourceRefInUse : Option PersistentVolumeClaimSpec → Bool
  | none => false
  | some old => old.DataSourceRef.isSome

/-- Modelled from the spec: `dataSourceIsPvcOrSnapshot`, the "recognized
in-tree kinds": a core-group PersistentVolumeClaim or a
snapshot.storage.k8s.io VolumeSnapshot. -/
def dataSourceIsPvcOrSnapshot : Option TypedLocalObjectReference → Bool
  | none => false
  | some ds =>
    let apiGroup := ds.APIGroup.getD ""
    (ds.Kind == "PersistentVolumeClaim" && apiGroup == "") ||
    (ds.Kind == "VolumeSnapshot" && apiGroup == "snapshot.storage.k8s.io")

/-- Modelled from the spec: `pvcutil.DropDisabledFields` is not part of the
strategy file.  It returns the proposed spec with the fields of disabled
features cleared, unless the old spec already uses them: the attributes class
name (volume-attributes-class gate), `DataSourceRef` (any-data-source gate), and
a `DataSourceRef` that names a namespace (cross-namespace gate). -/
def DropDisabledFields (G : FeatureGates)
    (pvcSpec : PersistentVolumeClaimSpec) (oldPVCSpec : Option PersistentVolumeClaimSpec) :
    PersistentVolumeClaimSpec :=
  let oldUsesClass : Bool :=
    match oldPVCSpec with
    | none => false
    | some old => old.VolumeAttributesClassName.isSome
  let s1 : PersistentVolumeClaimSpec :=
    if !G.VolumeAttributesClass && !oldUsesClass then
      { pvcSpec with VolumeAttributesClassName := none }
    else pvcSpec
  let s2 : PersistentVolumeClaimSpec :=
    if !G.AnyVolumeDataSource && !dataSourceRefInUse oldPVCSpec then
      { s1 with DataSourceRef := none }
    else s1
  let namesNamespace : Bool :=
    match s2.DataSourceRef with
    | none => false
    | some r =>
      match r.Namespace with
      | none => false
      | some ns => ns.length != 0
  if !G.CrossNamespaceVolumeDataSource && namesNamespace && !dataSourceRefInUse oldPVCSpec then
    { s2 with DataSourceRef := none }
  else s2

/-- Modelled from the spec: `pvcutil.EnforceDataSourceBackwardsCompatibility` is
not part of the strategy file.  It drops a `DataSource` of an unrecognized kind
(anything other than PVC or VolumeSnapshot), unless the old spec uses a data
source or the proposed spec sets `DataSourceRef`. -/
def EnforceDataSourceBackwardsCompatibility
    (pvcSpec : PersistentVolumeClaimSpec) (oldPVCSpec : Option PersistentVolumeClaimSpec) :
    PersistentVolumeClaimSpec :=
  if dataSourceInUse oldPVCSpec then pvcSpec
  else if pvcSpec.DataSourceRef.isSome then pvcSpec
  else if !dataSourceIsPvcOrSnapshot pvcSpec.DataSource then
    { pvcSpec with DataSource := none }
  else pvcSpec

/-- Modelled from the spec: `pvcutil.NormalizeDataSources` is not part of the
strategy file.  With the any-data-source gate on and exactly one of the two
references set, it copies that one into the other; the general form is copied
into the legacy form only when it names no namespace.  Otherwise the spec is
returned as it is. -/
def NormalizeDataSources (G : FeatureGates) (pvcSpec : PersistentVolumeClaimSpec) :
    PersistentVolumeClaimSpec :=
  if !G.AnyVolumeDataSource then pvcSpec
  else
    match pvcSpec.DataSource, pvcSpec.DataSourceRef with
    | some ds, none =>
      { pvcSpec with
        DataSourceRef := some
          { APIGroup := ds.APIGroup, Kind := ds.Kind, Name := ds.Name, Namespace := none } }
    | none, some r =>
      let noNamespace : Bool :=
        match r.Namespace with
        | none => true
        | some ns => ns.length == 0
      if noNamespace then
        { pvcSpec with
          DataSource := some { APIGroup := r.APIGroup, Kind := r.Kind, Name := r.Name } }
      else pvcSpec
    | _, _ => pvcSpec

/-- Modelled from the spec: `pvcutil.DropDisabledFieldsFromStatus` is not part
of the strategy file.  It returns the proposed record with the status fields of
disabled features cleared, unless the old record already uses them; it writes
to nothing else (`TestDropConditions`: the old record is never changed and the
conditions of the proposed record are kept). -/
def DropDisabledFieldsFromStatus (G : FeatureGates)
    (pvc : PersistentVolumeClaim) (oldPVC : Option PersistentVolumeClaim) :
    PersistentVolumeClaim :=
  let oldHas (f : PersistentVolumeClaim → Bool) : Bool :=
    match oldPVC with
    | none => false
    | some old => f old
  let st0 := pvc.Status
  let st1 : PersistentVolumeClaimStatus :=
    if !G.VolumeAttributesClass && !oldHas (fun o => o.Status.CurrentVolumeAttributesClassName.isSome)
    then { st0 with CurrentVolumeAttributesClassName := none } else st0
  let st2 : PersistentVolumeClaimStatus :=
    if !G.VolumeAttributesClass && !oldHas (fun o => o.Status.ModifyVolumeStatus.isSome)
    then { st1 with ModifyVolumeStatus := none } else st1
  let st3 : PersistentVolumeClaimStatus :=
    if !G.RecoverVolumeExpansionFailure && !oldHas (fun o => o.Status.AllocatedResources.isSome)
    then { st2 with AllocatedResources := none } else st2
  let st4 : PersistentVolumeClaimStatus :=
    if !G.RecoverVolumeExpansionFailure &&
        !oldHas (fun o => o.Status.AllocatedResourceStatuses.isSome)
    then { st3 with AllocatedResourceStatuses := none } else st3
  { pvc with Status := st4 }

/-! ## The strategies (`strategy.go`) -/

/-- The method `persistentvolumeclaimStrategy.PrepareForCreate`: clears the
status, then drops disabled fields and reconciles the two data source fields of
the spec.  Returns the record after the call. -/
def persistentvolumeclaimStrategy.PrepareForCreate (G : FeatureGates)
    (obj : PersistentVolumeClaim) : PersistentVolumeClaim :=
  let pvc := obj
  let pvc := { pvc with Status := PersistentVolumeClaimStatus.empty }
  let pvc := { pvc with Spec := DropDisabledFields G pvc.Spec none }
  let pvc := { pvc with Spec := EnforceDataSourceBackwardsCompatibility pvc.Spec none }
  { pvc with Spec := NormalizeDataSources G pvc.Spec }

/-- The method `persistentvolumeclaimStrategy.PrepareForUpdate`: the status of
the proposed record is set from the old one, the spec of the proposed record is
reconciled as on create, and the data source fields of the old record are
normalized too.  Returns the proposed and the old record after the call. -/
def persistentvolumeclaimStrategy.PrepareForUpdate (G : FeatureGates)
    (obj old : PersistentVolumeClaim) : PersistentVolumeClaim × PersistentVolumeClaim :=
  let newPvc := obj
  let oldPvc := old
  let newPvc := { newPvc with Status := oldPvc.Status }
  let newPvc := { newPvc with Spec := DropDisabledFields G newPvc.Spec (some oldPvc.Spec) }
  let newPvc :=
    { newPvc with Spec := EnforceDataSourceBackwardsCompatibility newPvc.Spec (some oldPvc.Spec) }
  let newPvc := { newPvc with Spec := NormalizeDataSources G newPvc.Spec }
  let oldPvc := { oldPvc with Spec := NormalizeDataSources G oldPvc.Spec }
  (newPvc, oldPvc)

/-- The method `persistentvolumeclaimStatusStrategy.PrepareForUpdate`: the spec of
the proposed record is set from the old one, then disabled status fields are
dropped.  Returns the proposed and the old record after the call. -/
def persistentvolumeclaimStatusStrategy.PrepareForUpdate (G : FeatureGates)
    (obj old : PersistentVolumeClaim) : PersistentVolumeClaim × PersistentVolumeClaim :=
  let newPVC := obj
  let oldPVC := old
  let newPVC := { newPVC with Spec := oldPVC.Spec }
  let newPVC := DropDisabledFieldsFromStatus G newPVC (some oldPVC)
  (newPVC, oldPVC)

/-- The method `persistentvolumeclaimStorageClassStrategy.PrepareForUpdate`: keeps
the proposed storage class name, overwrites the proposed record with the old
one, and puts the proposed storage class name back.  Returns the proposed and
the old record after the call. -/
def persistentvolumeclaimStorageClassStrategy.PrepareForUpdate
    (obj old : PersistentVolumeClaim) : PersistentVolumeClaim × PersistentVolumeClaim :=
  let newPVC := obj
  let oldPVC := old
  let desiredStorageClassName := newPVC.Spec.StorageClassName
  let newPVC := oldPVC
  let newPVC :=
    { newPVC with Spec := { newPVC.Spec with StorageClassName := desiredStorageClassName } }
  (newPVC, oldPVC)

/-- The old clone of the subresource validation after its two assignments
(lines 239-246): the volume name of the proposed record when the old one is
empty, and the storage class name of the proposed record. -/
def oldPvcCloneSpec (newPvc oldPvc : PersistentVolumeClaim) : PersistentVolumeClaimSpec :=
  let newPvcClone := newPvc
  let oldPvcClone := oldPvc
  let oldSpec : PersistentVolumeClaimSpec :=
    if oldPvc.Spec.VolumeName.length = 0 then
      { oldPvcClone.Spec with VolumeName := newPvcClone.Spec.VolumeName }
    else oldPvcClone.Spec
  { oldSpec with StorageClassName := newPvcClone.Spec.StorageClassName }

/-- The new clone of the subresource validation after its two assignments
(lines 249-255), both made only for a bound claim: the storage request of the
old record is written into a non-nil requests map, and a non-nil attributes
class name is replaced by that of the old clone. -/
def newPvcCloneSpec (newPvc oldPvc : PersistentVolumeClaim) : PersistentVolumeClaimSpec :=
  let newPvcClone := newPvc
  let spec1 : PersistentVolumeClaimSpec :=
    match decide (newPvc.Status.Phase = ClaimBound), newPvcClone.Spec.Resources.Requests with
    | true, some es =>
      { newPvcClone.Spec with
        Resources :=
          { newPvcClone.Spec.Resources with
            Requests := some (assignEntry ResourceStorage
              (oldPvc.Spec.Resources.Requests.index ResourceStorage Quantity.zero) es) } }
    | _, _ => newPvcClone.Spec
  if newPvc.Status.Phase = ClaimBound ∧ spec1.VolumeAttributesClassName ≠ none then
    { spec1 with
      VolumeAttributesClassName := (oldPvcCloneSpec newPvc oldPvc).VolumeAttributesClassName }
  else spec1

/-- The immutability check of the subresource validation (lines 261-264): one
Forbidden error at `spec` when the two clones still differ. -/
def specImmutableErrs (X : Externals) (newPvc oldPvc : PersistentVolumeClaim) : ErrorList :=
  let newSpec := newPvcCloneSpec newPvc oldPvc
  let oldSpec := oldPvcCloneSpec newPvc oldPvc
  if !newSpec.semanticEq oldSpec then
    let specDiff := X.cmpDiff oldSpec newSpec
    [Forbidden (NewPath "spec" [])
      ("spec is immutable after creation except resources.requests, " ++
       "volumeAttributesClassName for bound claims, and storageClassName via " ++
       "storageclass subresource\n" ++ specDiff)]
  else []

/-- The size check of the subresource validation (lines 257-259, 265-276). -/
def storageSizeErrs (newPvc oldPvc : PersistentVolumeClaim)
    (opts : PersistentVolumeClaimSpecValidationOptions) : ErrorList :=
  let oldSize := oldPvc.Spec.Resources.Requests.index ResourceStorage Quantity.zero
  let newSize := newPvc.Spec.Resources.Requests.index ResourceStorage Quantity.zero
  let statusSize := oldPvc.Status.Capacity.index ResourceStorage Quantity.zero
  if newSize.Cmp oldSize < 0 then
    if !opts.EnableRecoverFromExpansionFailure then
      [Forbidden (NewPath "spec" ["resources", "requests", "storage"])
        "field can not be less than previous value"]
    else
      if newSize.Cmp statusSize ≤ 0 then
        [Forbidden (NewPath "spec" ["resources", "requests", "storage"])
          "field can not be less than status.capacity"]
      else []
  else []

/-- The attributes class check of the subresource validation (lines 280-293). -/
def volumeAttributesClassErrs (G : FeatureGates) (newPvc oldPvc : PersistentVolumeClaim)
    (opts : PersistentVolumeClaimSpecValidationOptions) : ErrorList :=
  if oldPvc.Spec.VolumeAttributesClassName ≠ newPvc.Spec.VolumeAttributesClassName then
    (if !G.VolumeAttributesClass then
      [Forbidden (NewPath "spec" ["volumeAttributesClassName"])
        "update is forbidden when the VolumeAttributesClass feature gate is disabled"]
     else []) ++
    (if opts.EnableVolumeAttributesClass then
      match oldPvc.Spec.VolumeAttributesClassName, newPvc.Spec.VolumeAttributesClassName with
      | some _, none =>
        [Forbidden (NewPath "spec" ["volumeAttributesClassName"])
          "update from non-nil value to nil is forbidden"]
      | some _, some cls =>
        if cls.length = 0 then
          [Forbidden (NewPath "spec" ["volumeAttributesClassName"])
            "update from non-nil value to an empty string is forbidden"]
        else []
      | none, _ => []
     else [])
  else []

/-- The function `validatePersistentVolumeClaimUpdateForStorageClassSubresource`:
the errors of the metadata update, then those of the immutability check, the
size check, the volume mode check and the attributes class check, in the order
the function appends them. -/
def validatePersistentVolumeClaimUpdateForStorageClassSubresource
    (X : Externals) (G : FeatureGates) (newPvc oldPvc : PersistentVolumeClaim)
    (opts : PersistentVolumeClaimSpecValidationOptions) : ErrorList :=
  let allErrs :=
    X.ValidateObjectMetaUpdate newPvc.ObjectMeta oldPvc.ObjectMeta (NewPath "metadata" [])
  let allErrs := allErrs ++ specImmutableErrs X newPvc oldPvc
  let allErrs := allErrs ++ storageSizeErrs newPvc oldPvc opts
  let allErrs := allErrs ++
    ValidateImmutableField newPvc.Spec.VolumeMode oldPvc.Spec.VolumeMode (NewPath "volumeMode" [])
  allErrs ++ volumeAttributesClassErrs G newPvc oldPvc opts

/-- The error `ValidateUpdate` of the storage class strategy reports when the
storage class name does not change (lines 214-215). -/
def storageClassNotChanging : FieldError :=
  Forbidden (NewPath "spec" ["storageClassName"])
    "storage class is not changing; use the main PVC resource for other updates"

/-- The method `persistentvolumeclaimStorageClassStrategy.ValidateUpdate`. -/
def persistentvolumeclaimStorageClassStrategy.ValidateUpdate
    (X : Externals) (G : FeatureGates) (obj old : PersistentVolumeClaim) : ErrorList :=
  let newPvc := obj
  let oldPvc := old
  let allErrs : ErrorList := []
  let allErrs :=
    if oldPvc.Spec.StorageClassName = newPvc.Spec.StorageClassName then
      allErrs ++ [storageClassNotChanging]
    else allErrs
  let opts := X.ValidationOptionsForPersistentVolumeClaim newPvc (some oldPvc)
  let allErrs := allErrs ++ X.ValidatePersistentVolumeClaim newPvc opts
  allErrs ++ validatePersistentVolumeClaimUpdateForStorageClassSubresource X G newPvc oldPvc opts

/-! ## Records and collaborators used in worked examples -/

/-- The quantity `resource.MustParse("10G")`. -/
def tenG : Quantity := { value := 10000000000, format := "DecimalSI" }

/-- The test helper `validNewPersistentVolumeClaim(name, ns)` of
`strategy_test.go`: a pending claim that requests 10G. -/
def validNewPersistentVolumeClaim (name ns : String) : PersistentVolumeClaim :=
  { TypeMeta := { Kind := "", APIVersion := "" },
    ObjectMeta := { Name := name, Namespace := ns, ResourceVersion := "", Labels := none },
    Spec :=
      { AccessModes := ["ReadWriteOnce"],
        Selector := none,
        Resources := { Limits := none, Requests := some [(ResourceStorage, tenG)] },
        VolumeName := "",
        StorageClassName := none,
        VolumeMode := none,
        DataSource := none,
        DataSourceRef := none,
        VolumeAttributesClassName := none },
    Status := { PersistentVolumeClaimStatus.empty with Phase := ClaimPending } }

/-- The record `validNewPersistentVolumeClaim` with a storage class name. -/
def claimWithClass (cls : String) : PersistentVolumeClaim :=
  let pvc := validNewPersistentVolumeClaim "test-pvc" "default"
  { pvc with
    ObjectMeta := { pvc.ObjectMeta with ResourceVersion := "1" },
    Spec := { pvc.Spec with StorageClassName := some cls } }

/-- The record `pvc` with its storage request replaced by the map `reqs`. -/
def withRequests (pvc : PersistentVolumeClaim) (reqs : ResourceList) : PersistentVolumeClaim :=
  { pvc with Spec := { pvc.Spec with Resources := { pvc.Spec.Resources with Requests := reqs } } }

/-- The record `pvc` with the storage capacity `cap` recorded in its status. -/
def withCapacity (pvc : PersistentVolumeClaim) (cap : Int) : PersistentVolumeClaim :=
  { pvc with
    Status :=
      { pvc.Status with
        Capacity := some [(ResourceStorage, { value := cap, format := "DecimalSI" })] } }

/-- A requests map that asks for `n` units of storage. -/
def storageRequest (n : Int) : ResourceList :=
  some [(ResourceStorage, { value := n, format := "DecimalSI" })]

/-- Collaborators for worked examples: options with both switches off, a
generic validator that only requires the storage request to be present, a
metadata validator that accepts, and an empty diff text. -/
def exampleExternals : Externals :=
  { ValidationOptionsForPersistentVolumeClaim := fun _ _ =>
      { EnableRecoverFromExpansionFailure := false, EnableVolumeAttributesClass := false },
    ValidatePersistentVolumeClaim := fun pvc _ =>
      if (lookupEntry ResourceStorage pvc.Spec.Resources.Requests.entries).isSome then []
      else [{ ErrType := .ErrorTypeRequired,
              Field := NewPath "spec" ["resources[storage]"], Detail := "" }],
    ValidateObjectMetaUpdate := fun _ _ _ => [],
    cmpDiff := fun _ _ => "" }

/-- Feature gates all off. -/
def gatesOff : FeatureGates :=
  { AnyVolumeDataSource := false, CrossNamespaceVolumeDataSource := false,
    VolumeAttributesClass := false, RecoverVolumeExpansionFailure := false }

/-- Validation options with the given expansion-recovery switch and the
attributes class switch off. -/
def optsRecover (b : Bool) : PersistentVolumeClaimSpecValidationOptions :=
  { EnableRecoverFromExpansionFailure := b, EnableVolumeAttributesClass := false }

/-- The record `pvc` with the storage class name `cls` and nothing else changed. -/
def withStorageClass (pvc : PersistentVolumeClaim) (cls : Option String) :
    PersistentVolumeClaim :=
  { pvc with Spec := { pvc.Spec with StorageClassName := cls } }

/-- Whether an error is a Forbidden error at the path `f`. -/
def isForbiddenAt (f : Path) (e : FieldError) : Bool :=
  decide (e.ErrType = ErrorType.ErrorTypeForbidden ∧ e.Field = f)

/-- Whether an error, of any kind, is reported at the path `f`. -/
def isAt (f : Path) (e : FieldError) : Bool := decide (e.Field = f)

/-- The path `spec.resources.requests.storage` of the size errors. -/
def storageRequestPath : Path := ["spec", "resources", "requests", "storage"]

/-- The storage size the subresource validation reads from a requests or
capacity map: `m["storage"]`. -/
def storageOf (m : ResourceList) : Quantity := m.index ResourceStorage Quantity.zero

/-- The record `pvc` with the phase `phase` in its status. -/
def withPhase (pvc : PersistentVolumeClaim) (phase : String) : PersistentVolumeClaim :=
  { pvc with Status := { pvc.Status with Phase := phase } }

/-- The record `pvc` with the volume mode `mode`. -/
def withVolumeMode (pvc : PersistentVolumeClaim) (mode : Option String) :
    PersistentVolumeClaim :=
  { pvc with Spec := { pvc.Spec with VolumeMode := mode } }

/-- The record `pvc` with the storage request `q` written into its requests map
(a map is made when it has none). -/
def withStorageRequest (pvc : PersistentVolumeClaim) (q : Quantity) : PersistentVolumeClaim :=
  withRequests pvc (some (assignEntry ResourceStorage q pvc.Spec.Resources.Requests.entries))

/-- The record `pvc` with the volume name `name`. -/
def withVolumeName (pvc : PersistentVolumeClaim) (name : String) : PersistentVolumeClaim :=
  { pvc with Spec := { pvc.Spec with VolumeName := name } }

/-- The record `pvc` with the attributes class name `cls`. -/
def withVolumeAttributesClass (pvc : PersistentVolumeClaim) (cls : Option String) :
    PersistentVolumeClaim :=
  { pvc with Spec := { pvc.Spec with VolumeAttributesClassName := cls } }

/-- The path `spec.volumeAttributesClassName` of the attributes class errors. -/
def volumeAttributesClassPath : Path := ["spec", "volumeAttributesClassName"]

/-- The detail of the Forbidden error of the immutability check, which ends with
the textual diff of the two clones. -/
def specImmutableDetail (X : Externals) (newPvc oldPvc : PersistentVolumeClaim) : String :=
  "spec is immutable after creation except resources.requests, " ++
  "volumeAttributesClassName for bound claims, and storageClassName via " ++
  "storageclass subresource\n" ++
  X.cmpDiff (oldPvcCloneSpec newPvc oldPvc) (newPvcCloneSpec newPvc oldPvc)

/-- The requests map of the new clone. -/
def newCloneRequests (n o : PersistentVolumeClaim) : ResourceList :=
  match decide (n.Status.Phase = ClaimBound), n.Spec.Resources.Requests with
  | true, some es =>
    some (assignEntry ResourceStorage (storageOf o.Spec.Resources.Requests) es)
  | _, _ => n.Spec.Resources.Requests

/-- A quantity of `n` units. -/
def units (n : Int) : Quantity := { value := n, format := "DecimalSI" }

/-- The record `pvc` with the access modes `modes`. -/
def withAccessModes (pvc : PersistentVolumeClaim) (modes : List String) :
    PersistentVolumeClaim :=
  { pvc with Spec := { pvc.Spec with AccessModes := modes } }

/-- The test helper `makeDataSource(apiGroup, kind, name)` of `strategy_test.go`. -/
def makeDataSource (apiGroup kind name : String) : TypedLocalObjectReference :=
  { APIGroup := some apiGroup, Kind := kind, Name := name }

/-- The test helper `makeDataSourceRef(apiGroup, kind, name, namespace)` of
`strategy_test.go`. -/
def makeDataSourceRef (apiGroup kind name : String) (ns : Option String) :
    TypedObjectReference :=
  { APIGroup := some apiGroup, Kind := kind, Name := name, Namespace := ns }

/-- The record of `TestPrepareForCreate`: only the two data source fields set. -/
def claimWithSources (ds : Option TypedLocalObjectReference)
    (ref : Option TypedObjectReference) : PersistentVolumeClaim :=
  { TypeMeta := { Kind := "", APIVersion := "" },
    ObjectMeta := { Name := "", Namespace := "", ResourceVersion := "", Labels := none },
    Spec :=
      { AccessModes := [], Selector := none,
        Resources := { Limits := none, Requests := none },
        VolumeName := "", StorageClassName := none, VolumeMode := none,
        DataSource := ds, DataSourceRef := ref, VolumeAttributesClassName := none },
    Status := PersistentVolumeClaimStatus.empty }

/-- Feature gates with the any-data-source gate and the cross-namespace gate as
given, the others off. -/
def gatesData (anyEnabled xnsEnabled : Bool) : FeatureGates :=
  { AnyVolumeDataSource := anyEnabled, CrossNamespaceVolumeDataSource := xnsEnabled,
    VolumeAttributesClass := false, RecoverVolumeExpansionFailure := false }

/-- Whether a legacy data source targets a core-group PersistentVolumeClaim or a
snapshot.storage.k8s.io VolumeSnapshot, in the words of the claims. -/
def TargetsPvcOrSnapshot (ds : TypedLocalObjectReference) : Prop :=
  (ds.Kind = "PersistentVolumeClaim" ∧ ds.APIGroup.getD "" = "") ∨
  (ds.Kind = "VolumeSnapshot" ∧ ds.APIGroup.getD "" = "snapshot.storage.k8s.io")

instance (ds : TypedLocalObjectReference) : Decidable (TargetsPvcOrSnapshot ds) := by
  unfold TargetsPvcOrSnapshot
  infer_instance

/-- Whether a data source reference names a namespace: its `Namespace` is set
and is not the empty string. -/
def NamesNamespace (ref : TypedObjectReference) : Prop :=
  match ref.Namespace with
  | none => False
  | some ns => ns ≠ ""

instance (ref : TypedObjectReference) : Decidable (NamesNamespace ref) := by
  unfold NamesNamespace
  split <;> infer_instance

/-- The general reference that names the same target as a legacy data source. -/
def refOfDataSource (ds : TypedLocalObjectReference) : TypedObjectReference :=
  { APIGroup := ds.APIGroup, Kind := ds.Kind, Name := ds.Name, Namespace := none }

/-- The legacy data source that names the same target as a general reference. -/
def dataSourceOfRef (ref : TypedObjectReference) : TypedLocalObjectReference :=
  { APIGroup := ref.APIGroup, Kind := ref.Kind, Name := ref.Name }

/-- One case of `TestPrepareForCreate`: the two gates, the two fields given,
and the two fields wanted. -/
structure PrepareForCreateCase where
  anyEnabled : Bool
  xnsEnabled : Bool
  dataSource : Option TypedLocalObjectReference
  dataSourceRef : Option TypedObjectReference
  want : Option TypedLocalObjectReference
  wantRef : Option TypedObjectReference

/-- Whether `Strategy.PrepareForCreate` gives what a case of the test wants. -/
def PrepareForCreateCase.passes (c : PrepareForCreateCase) : Bool :=
  let pvc := persistentvolumeclaimStrategy.PrepareForCreate
    (gatesData c.anyEnabled c.xnsEnabled) (claimWithSources c.dataSource c.dataSourceRef)
  decide (pvc.Spec.DataSource = c.want) && decide (pvc.Spec.DataSourceRef = c.wantRef)

/-- The namespace `ns1` of the test. -/
def testNs : Option String := some "ns1"

/-- The test value `volumeDataSource`. -/
def volumeDataSource : TypedLocalObjectReference :=
  makeDataSource "" "PersistentVolumeClaim" "my-vol"

/-- The test value `volumeDataSourceRef`. -/
def volumeDataSourceRef : TypedObjectReference :=
  makeDataSourceRef "" "PersistentVolumeClaim" "my-vol" none

/-- The test value `xnsVolumeDataSourceRef`. -/
def xnsVolumeDataSourceRef : TypedObjectReference :=
  makeDataSourceRef "" "PersistentVolumeClaim" "my-vol" testNs

/-- The test value `snapshotDataSource`. -/
def snapshotDataSource : TypedLocalObjectReference :=
  makeDataSource "snapshot.storage.k8s.io" "VolumeSnapshot" "my-snap"

/-- The test value `snapshotDataSourceRef`. -/
def snapshotDataSourceRef : TypedObjectReference :=
  makeDataSourceRef "snapshot.storage.k8s.io" "VolumeSnapshot" "my-snap" none

/-- The test value `xnsSnapshotDataSourceRef`. -/
def xnsSnapshotDataSourceRef : TypedObjectReference :=
  makeDataSourceRef "snapshot.storage.k8s.io" "VolumeSnapshot" "my-snap" testNs

/-- The test value `genericDataSource`. -/
def genericDataSource : TypedLocalObjectReference :=
  makeDataSource "generic.storage.k8s.io" "Generic" "my-foo"

/-- The test value `genericDataSourceRef`. -/
def genericDataSourceRef : TypedObjectReference :=
  makeDataSourceRef "generic.storage.k8s.io" "Generic" "my-foo" none

/-- The test value `xnsGenericDataSourceRef`. -/
def xnsGenericDataSourceRef : TypedObjectReference :=
  makeDataSourceRef "generic.storage.k8s.io" "Generic" "my-foo" testNs

/-- The test value `coreDataSource`. -/
def coreDataSource : TypedLocalObjectReference :=
  makeDataSource "" "Pod" "my-pod"

/-- The test value `coreDataSourceRef`. -/
def coreDataSourceRef : TypedObjectReference :=
  makeDataSourceRef "" "Pod" "my-pod" none

/-- The test value `xnsCoreDataSourceRef`. -/
def xnsCoreDataSourceRef : TypedObjectReference :=
  makeDataSourceRef "" "Pod" "my-pod" testNs

/-- The table of `TestPrepareForCreate` in `strategy_test.go`, in its order. -/
def prepareForCreateCases : List PrepareForCreateCase :=
  [
    PrepareForCreateCase.mk false false none none none none,
    PrepareForCreateCase.mk false false (some volumeDataSource) none (some volumeDataSource) none,
    PrepareForCreateCase.mk false false (some snapshotDataSource) none (some snapshotDataSource)
      none,
    PrepareForCreateCase.mk false false (some genericDataSource) none none none,
    PrepareForCreateCase.mk false false (some coreDataSource) none none none,
    PrepareForCreateCase.mk false false none (some volumeDataSourceRef) none none,
    PrepareForCreateCase.mk false false none (some snapshotDataSourceRef) none none,
    PrepareForCreateCase.mk false false none (some genericDataSourceRef) none none,
    PrepareForCreateCase.mk false false none (some coreDataSourceRef) none none,
    PrepareForCreateCase.mk true false none none none none,
    PrepareForCreateCase.mk true false (some volumeDataSource) none (some volumeDataSource)
      (some volumeDataSourceRef),
    PrepareForCreateCase.mk true false (some snapshotDataSource) none (some snapshotDataSource)
      (some snapshotDataSourceRef),
    PrepareForCreateCase.mk true false (some genericDataSource) none none none,
    PrepareForCreateCase.mk true false (some coreDataSource) none none none,
    PrepareForCreateCase.mk true false none (some volumeDataSourceRef) (some volumeDataSource)
      (some volumeDataSourceRef),
    PrepareForCreateCase.mk true false none (some snapshotDataSourceRef)
      (some snapshotDataSource) (some snapshotDataSourceRef),
    PrepareForCreateCase.mk true false none (some genericDataSourceRef) (some genericDataSource)
      (some genericDataSourceRef),
    PrepareForCreateCase.mk true false none (some coreDataSourceRef) (some coreDataSource)
      (some coreDataSourceRef),
    PrepareForCreateCase.mk true false (some volumeDataSource) (some snapshotDataSourceRef)
      (some volumeDataSource) (some snapshotDataSourceRef),
    PrepareForCreateCase.mk true true none none none none,
    PrepareForCreateCase.mk true true (some volumeDataSource) none (some volumeDataSource)
      (some volumeDataSourceRef),
    PrepareForCreateCase.mk true true (some snapshotDataSource) none (some snapshotDataSource)
      (some snapshotDataSourceRef),
    PrepareForCreateCase.mk true true (some genericDataSource) none none none,
    PrepareForCreateCase.mk true true (some coreDataSource) none none none,
    PrepareForCreateCase.mk true true none (some volumeDataSourceRef) (some volumeDataSource)
      (some volumeDataSourceRef),
    PrepareForCreateCase.mk true true none (some snapshotDataSourceRef) (some snapshotDataSource)
      (some snapshotDataSourceRef),
    PrepareForCreateCase.mk true true none (some genericDataSourceRef) (some genericDataSource)
      (some genericDataSourceRef),
    PrepareForCreateCase.mk true true none (some coreDataSourceRef) (some coreDataSource)
      (some coreDataSourceRef),
    PrepareForCreateCase.mk true true (some volumeDataSource) (some snapshotDataSourceRef)
      (some volumeDataSource) (some snapshotDataSourceRef),
    PrepareForCreateCase.mk true true none (some xnsVolumeDataSourceRef) none
      (some xnsVolumeDataSourceRef),
    PrepareForCreateCase.mk true true none (some xnsSnapshotDataSourceRef) none
      (some xnsSnapshotDataSourceRef),
    PrepareForCreateCase.mk true true none (some xnsGenericDataSourceRef) none
      (some xnsGenericDataSourceRef),
    PrepareForCreateCase.mk true true none (some xnsCoreDataSourceRef) none
      (some xnsCoreDataSourceRef),
    PrepareForCreateCase.mk false true none (some xnsSnapshotDataSourceRef) none none ]

/-! ## Reset fields, flags and selectable fields (`strategy.go`) -/

/-- A `fieldpath.Set` as the list of the paths it holds. -/
abbrev FieldpathSet := List Path

/-- The constructor `fieldpath.MakePathOrDie(parts...)` on field names. -/
def MakePathOrDie (parts : List String) : Path := parts

/-- The constructor `fieldpath.NewSet(paths...)`. -/
def NewSet (paths : List Path) : FieldpathSet := paths

/-- The method `persistentvolumeclaimStrategy.GetResetFields`: a map from API
version to the set of reset fields. -/
def persistentvolumeclaimStrategy.GetResetFields : GoMap FieldpathSet :=
  some [("v1", NewSet [MakePathOrDie ["status"]])]

/-- The method `persistentvolumeclaimStatusStrategy.GetResetFields`. -/
def persistentvolumeclaimStatusStrategy.GetResetFields : GoMap FieldpathSet :=
  some [("v1", NewSet [MakePathOrDie ["spec"]])]

/-- The method `persistentvolumeclaimStorageClassStrategy.GetResetFields`, which
returns `Strategy.GetResetFields()`. -/
def persistentvolumeclaimStorageClassStrategy.GetResetFields : GoMap FieldpathSet :=
  persistentvolumeclaimStrategy.GetResetFields

/-- The method `persistentvolumeclaimStrategy.NamespaceScoped`. -/
def persistentvolumeclaimStrategy.NamespaceScoped : Bool := true

/-- The method `persistentvolumeclaimStrategy.AllowCreateOnUpdate`. -/
def persistentvolumeclaimStrategy.AllowCreateOnUpdate : Bool := false

/-- The method `persistentvolumeclaimStrategy.AllowUnconditionalUpdate`. -/
def persistentvolumeclaimStrategy.AllowUnconditionalUpdate : Bool := true

/-- The method `NamespaceScoped` of the status strategy, promoted from the
embedded `persistentvolumeclaimStrategy`. -/
def persistentvolumeclaimStatusStrategy.NamespaceScoped : Bool :=
  persistentvolumeclaimStrategy.NamespaceScoped

/-- The method `AllowCreateOnUpdate` of the status strategy, promoted from the
embedded `persistentvolumeclaimStrategy`. -/
def persistentvolumeclaimStatusStrategy.AllowCreateOnUpdate : Bool :=
  persistentvolumeclaimStrategy.AllowCreateOnUpdate

/-- The method `NamespaceScoped` of the storage class strategy, promoted from
the embedded `persistentvolumeclaimStrategy`. -/
def persistentvolumeclaimStorageClassStrategy.NamespaceScoped : Bool :=
  persistentvolumeclaimStrategy.NamespaceScoped

/-- The method `AllowCreateOnUpdate` of the storage class strategy, promoted
from the embedded `persistentvolumeclaimStrategy`. -/
def persistentvolumeclaimStorageClassStrategy.AllowCreateOnUpdate : Bool :=
  persistentvolumeclaimStrategy.AllowCreateOnUpdate

/-- Modelled from the spec: `generic.ObjectMetaFieldsSet` is not part of the
strategy file.  It is the "generic metadata indexer": the field set with
`metadata.name`, and `metadata.namespace` when the kind has a namespace. -/
def ObjectMetaFieldsSet (objectMeta : ObjectMeta) (hasNamespaceField : Bool) : GoMap String :=
  if !hasNamespaceField then some [("metadata.name", objectMeta.Name)]
  else some [("metadata.name", objectMeta.Name), ("metadata.namespace", objectMeta.Namespace)]

/-- Modelled from the spec: `generic.MergeFieldsSets` is not part of the
strategy file.  It assigns every entry of `fragment` into `source` and returns
`source`. -/
def MergeFieldsSets (source fragment : GoMap String) : GoMap String :=
  fragment.entries.foldl (fun src e => some (assignEntry e.1 e.2 src.entries)) source

/-- The function `PersistentVolumeClaimToSelectableFields`. -/
def PersistentVolumeClaimToSelectableFields (persistentvolumeclaim : PersistentVolumeClaim) :
    GoMap String :=
  let objectMetaFieldsSet := ObjectMetaFieldsSet persistentvolumeclaim.ObjectMeta true
  let specificFieldsSet : GoMap String := some [("name", persistentvolumeclaim.ObjectMeta.Name)]
  MergeFieldsSets objectMetaFieldsSet specificFieldsSet

/-- A `runtime.Object` handed to `GetAttrs`: a claim record, or an object of
another type (named by its kind). -/
inductive RuntimeObject where
  | claim (pvc : PersistentVolumeClaim)
  | other (kind : String)
deriving DecidableEq

/-- The three results of `GetAttrs`: labels, fields and the error (`none` is the
nil error). -/
structure Attrs where
  labels : GoMap String
  fields : GoMap String
  err : Option String
deriving DecidableEq

/-- The function `GetAttrs`. -/
def GetAttrs (obj : RuntimeObject) : Attrs :=
  match obj with
  | RuntimeObject.claim persistentvolumeclaimObj =>
    { labels := persistentvolumeclaimObj.ObjectMeta.Labels,
      fields := PersistentVolumeClaimToSelectableFields persistentvolumeclaimObj,
      err := none }
  | RuntimeObject.other _ =>
    { labels := none, fields := none, err := some "not a persistentvolumeclaim" }

/-! ## The audit filter (`apiserver/pkg/endpoints/filters/ddog.go`) -/

/-- The type `http.Header`, a `map[string][]string`. -/
abbrev Header := GoMap (List String)

/-- The method `http.Header.Get` for a key in canonical form: the first value
under the key, or the empty string when there is none. -/
def Header.Get (h : Header) (key : String) : String :=
  match GoMap.index h key [] with
  | [] => ""
  | v :: _ => v

/-- The struct `tls.ConnectionState`, with the negotiated cipher suite (a
`uint16`). -/
structure ConnectionState where
  CipherSuite : Nat
deriving DecidableEq

/-- The struct `http.Request`, with the field the filter reads: the TLS state,
nil on a plain connection. -/
structure Request where
  TLS : Option ConnectionState
deriving DecidableEq

/-- An `http.ResponseWriter`, with the header map its `Header()` returns. -/
structure ResponseWriter where
  Header : Header
deriving DecidableEq

/-- Functions the filter calls and that are defined elsewhere, over a state `σ`
that holds the audit context of the request: `audit.AddAuditAnnotation` with a
key and a value, and `tls.CipherSuiteName`. -/
structure AuditExternals (σ : Type) where
  AddAuditAnnotation : σ → String → String → σ
  CipherSuiteName : Nat → String

/-- An `http.Handler`: what `ServeHTTP(w, req)` does to the state. -/
abbrev Handler (σ : Type) := ResponseWriter → Request → σ → σ

/-- The function `WithDDOGAudits`: the handler it returns. -/
def WithDDOGAudits {σ : Type} (E : AuditExternals σ) (handler : Handler σ) : Handler σ :=
  fun w req ctx =>
    let ctx :=
      if (lookupEntry "Content-Type" w.Header.entries).isSome then
        E.AddAuditAnnotation ctx "audit.datadoghq.com/contentType" (w.Header.Get "Content-Type")
      else ctx
    let ctx :=
      match req.TLS with
      | some tls =>
        if tls.CipherSuite > 0 then
          E.AddAuditAnnotation ctx "audit.datadoghq.com/cipher" (E.CipherSuiteName tls.CipherSuite)
        else ctx
      | none => ctx
    handler w req ctx

/-- The annotations the filter is to add, in the words of the claim: the
content type when the response header has a Content-Type entry, then the cipher
name when the request has TLS state with a non-zero cipher suite. -/
def ddogAnnotations {σ : Type} (E : AuditExternals σ) (w : ResponseWriter) (req : Request) :
    List (String × String) :=
  (match lookupEntry "Content-Type" w.Header.entries with
    | some _ => [("audit.datadoghq.com/contentType", w.Header.Get "Content-Type")]
    | none => []) ++
  (match req.TLS with
    | some tls =>
      if tls.CipherSuite ≠ 0 then
        [("audit.datadoghq.com/cipher", E.CipherSuiteName tls.CipherSuite)]
      else []
    | none => [])

/-- The state after the annotations of a list are added one by one. -/
def addAnnotations {σ : Type} (E : AuditExternals σ) (l : List (String × String)) (ctx : σ) : σ :=
  l.foldl (fun c kv => E.AddAuditAnnotation c kv.1 kv.2) ctx

/-- Collaborators that keep the annotations in the order they were added, with
the cipher suite named by its number. -/
def recordingAudit : AuditExternals (List (String × String)) :=
  { AddAuditAnnotation := fun ctx k v => ctx ++ [(k, v)],
    CipherSuiteName := fun id => if id = 5 then "TLS_RSA_WITH_RC4_128_SHA" else "unknown" }

/-- Validation options with the attributes class switch as given and the
expansion-recovery switch off. -/
def optsClass (b : Bool) : PersistentVolumeClaimSpecValidationOptions :=
  { EnableRecoverFromExpansionFailure := false, EnableVolumeAttributesClass := b }

/-- Feature gates with the attributes class gate as given, the others off. -/
def gatesClass (b : Bool) : FeatureGates :=
  { AnyVolumeDataSource := false, CrossNamespaceVolumeDataSource := false,
    VolumeAttributesClass := b, RecoverVolumeExpansionFailure := false }

/-! ## Theorems -/

/-! ### Where each check of the subresource validation reports -/

theorem specImmutableErrs_field (X : Externals) (n o : PersistentVolumeClaim) :
    ∀ e ∈ specImmutableErrs X n o, e.Field = ["spec"] := by
  intro e he
  unfold specImmutableErrs at he
  simp only [] at he
  split_ifs at he
  · simp only [List.mem_singleton] at he
    subst he
    rfl
  · simp at he

theorem storageSizeErrs_field (n o : PersistentVolumeClaim)
    (opts : PersistentVolumeClaimSpecValidationOptions) :
    ∀ e ∈ storageSizeErrs n o opts,
      e.Field = ["spec", "resources", "requests", "storage"] ∧
      e.ErrType = ErrorType.ErrorTypeForbidden := by
  intro e he
  unfold storageSizeErrs at he
  simp only [] at he
  split_ifs at he <;> first
    | (simp only [List.mem_singleton] at he; subst he; exact ⟨rfl, rfl⟩)
    | simp at he

theorem validateImmutableField_field (a b : Option String) (p : Path) :
    ∀ e ∈ ValidateImmutableField a b p,
      e.Field = p ∧ e.ErrType = ErrorType.ErrorTypeInvalid := by
  intro e he
  unfold ValidateImmutableField at he
  split_ifs at he
  · simp at he
  · simp only [List.mem_singleton] at he
    subst he
    exact ⟨rfl, rfl⟩

theorem volumeAttributesClassErrs_field (G : FeatureGates) (n o : PersistentVolumeClaim)
    (opts : PersistentVolumeClaimSpecValidationOptions) :
    ∀ e ∈ volumeAttributesClassErrs G n o opts,
      e.Field = ["spec", "volumeAttributesClassName"] := by
  intro e he
  unfold volumeAttributesClassErrs at he
  split_ifs at he <;> try split at he
  all_goals try split_ifs at he
  all_goals simp only [List.mem_append, List.mem_singleton, List.not_mem_nil, or_false,
    false_or, or_self] at he
  all_goals first
    | exact he.elim
    | (subst he; rfl)
    | (rcases he with rfl | rfl <;> rfl)

/-- A list whose errors all sit at one path holds no error that a predicate
only accepts at another path. -/
theorem countP_eq_zero_of_field {l : ErrorList} {f : Path} {p : FieldError → Bool}
    (hl : ∀ e ∈ l, e.Field = f) (hp : ∀ e, p e = true → e.Field ≠ f) :
    l.countP p = 0 := by
  rw [List.countP_eq_zero]
  intro e he hpe
  exact hp e hpe (hl e he)

/-! ### Quantities and maps -/

theorem quantity_cmp_neg_iff (a b : Quantity) : a.Cmp b < 0 ↔ a.value < b.value := by
  unfold Quantity.Cmp
  split_ifs <;> omega

theorem quantity_cmp_nonpos_iff (a b : Quantity) : a.Cmp b ≤ 0 ↔ a.value ≤ b.value := by
  unfold Quantity.Cmp
  split_ifs <;> omega

theorem quantity_semanticEq_refl (a : Quantity) : a.semanticEq a = true := by
  simp [Quantity.semanticEq, Quantity.Cmp]

theorem lookupEntry_isSome_of_mem {β : Type} (es : List (String × β)) (e : String × β)
    (h : e ∈ es) : (lookupEntry e.1 es).isSome = true := by
  induction es with
  | nil => simp at h
  | cons hd t ih =>
    obtain ⟨k1, v1⟩ := hd
    by_cases hk : k1 = e.1
    · simp [lookupEntry, hk]
    · rcases List.mem_cons.mp h with h1 | h1
      · exact absurd (by rw [h1]) hk
      · simp [lookupEntry, hk, ih h1]

theorem goMap_semanticEq_refl {β : Type} (eqv : β → β → Bool) (hrefl : ∀ x, eqv x x = true)
    (a : GoMap β) : GoMap.semanticEq eqv a a = true := by
  unfold GoMap.semanticEq
  rw [Bool.and_eq_true, List.all_eq_true, List.all_eq_true]
  refine ⟨fun e he => ?_, fun e he => lookupEntry_isSome_of_mem _ e he⟩
  have h := lookupEntry_isSome_of_mem _ e he
  cases hl : lookupEntry e.1 a.entries with
  | none => rw [hl] at h; simp at h
  | some x => simp [hrefl]

theorem assignEntry_of_lookup {β : Type} (k : String) (v : β) (es : List (String × β))
    (h : lookupEntry k es = some v) : assignEntry k v es = es := by
  induction es with
  | nil => simp [lookupEntry] at h
  | cons hd t ih =>
    obtain ⟨k1, v1⟩ := hd
    by_cases hk : k1 = k
    · simp [lookupEntry, hk] at h
      simp [assignEntry, hk, h]
    · simp [lookupEntry, hk] at h
      simp [assignEntry, hk, ih h]

theorem semanticEqPtr_refl {α : Type} (eqv : α → α → Bool) (hrefl : ∀ x, eqv x x = true)
    (a : Option α) : semanticEqPtr eqv a a = true := by
  cases a <;> simp [semanticEqPtr, hrefl]

theorem semanticEqPtr_decide_iff (a b : Option String) :
    semanticEqPtr (fun x y => decide (x = y)) a b = true ↔ a = b := by
  cases a <;> cases b <;> simp [semanticEqPtr]

theorem labelSelector_semanticEq_refl (a : LabelSelector) : a.semanticEq a = true := by
  simp [LabelSelector.semanticEq, goMap_semanticEq_refl]

theorem spec_semanticEq_refl (a : PersistentVolumeClaimSpec) :
    a.semanticEq a = true := by
  simp [PersistentVolumeClaimSpec.semanticEq, goMap_semanticEq_refl,
    quantity_semanticEq_refl, semanticEqPtr_refl, labelSelector_semanticEq_refl]

/-! ### The checks one by one -/

theorem storageSizeErrs_countP (n o : PersistentVolumeClaim)
    (opts : PersistentVolumeClaimSpecValidationOptions) :
    (storageSizeErrs n o opts).countP (isForbiddenAt storageRequestPath) =
      if (storageOf n.Spec.Resources.Requests).value < (storageOf o.Spec.Resources.Requests).value ∧
          (opts.EnableRecoverFromExpansionFailure = false ∨
            (storageOf n.Spec.Resources.Requests).value ≤ (storageOf o.Status.Capacity).value)
      then 1 else 0 := by
  unfold storageSizeErrs storageOf
  simp only [quantity_cmp_neg_iff, quantity_cmp_nonpos_iff]
  cases hr : opts.EnableRecoverFromExpansionFailure <;>
    split_ifs <;> simp_all [isForbiddenAt, Forbidden, NewPath, storageRequestPath]
  all_goals omega

theorem validateImmutableField_eq (a b : Option String) (p : Path) :
    ValidateImmutableField a b p =
      if a = b then [] else [Invalid p "field is immutable"] := by
  unfold ValidateImmutableField
  by_cases h : a = b
  · simp [h, (semanticEqPtr_decide_iff b b).mpr rfl]
  · have h2 : ¬ semanticEqPtr (fun x y => decide (x = y)) b a = true := fun hc =>
      h ((semanticEqPtr_decide_iff b a).mp hc).symm
    simp [h, h2]

/-- When only the storage class name differs, and a bound claim with a requests
map has a storage request, the two clones of the immutability check agree. -/
theorem specImmutableErrs_only_class (X : Externals) (old : PersistentVolumeClaim)
    (cls : Option String)
    (hst : (lookupEntry ResourceStorage old.Spec.Resources.Requests.entries).isSome = true) :
    specImmutableErrs X (withStorageClass old cls) old = [] := by
  have hold : oldPvcCloneSpec (withStorageClass old cls) old = (withStorageClass old cls).Spec := by
    unfold oldPvcCloneSpec withStorageClass
    split_ifs <;> rfl
  have hnew : newPvcCloneSpec (withStorageClass old cls) old = (withStorageClass old cls).Spec := by
    cases hreq : old.Spec.Resources.Requests with
    | none =>
      unfold newPvcCloneSpec
      simp only [hold]
      simp [withStorageClass, hreq]
    | some es =>
      rw [hreq] at hst
      obtain ⟨v, hv⟩ := Option.isSome_iff_exists.mp hst
      simp only [GoMap.entries] at hv
      have hidx : GoMap.index (some es) ResourceStorage Quantity.zero = v := by
        simp [GoMap.index, GoMap.entries, hv]
      have hassign : assignEntry ResourceStorage v es = es := assignEntry_of_lookup _ _ _ hv
      unfold newPvcCloneSpec
      simp only [hold]
      by_cases hb : old.Status.Phase = ClaimBound
      · simp [withStorageClass, hreq, hb, hidx, hassign]
        rw [← hreq]
      · simp [withStorageClass, hreq, hb]
  unfold specImmutableErrs
  simp [hold, hnew, spec_semanticEq_refl]

/-- The errors a predicate counts in the result of the subresource validation
are those it counts in each of the five parts. -/
theorem validate_countP (X : Externals) (G : FeatureGates) (n o : PersistentVolumeClaim)
    (opts : PersistentVolumeClaimSpecValidationOptions) (p : FieldError → Bool) :
    (validatePersistentVolumeClaimUpdateForStorageClassSubresource X G n o opts).countP p =
      (X.ValidateObjectMetaUpdate n.ObjectMeta o.ObjectMeta ["metadata"]).countP p +
      (specImmutableErrs X n o).countP p +
      (storageSizeErrs n o opts).countP p +
      (ValidateImmutableField n.Spec.VolumeMode o.Spec.VolumeMode ["volumeMode"]).countP p +
      (volumeAttributesClassErrs G n o opts).countP p := by
  simp only [validatePersistentVolumeClaimUpdateForStorageClassSubresource,
    List.countP_append, NewPath]

theorem isForbiddenAt_field {f : Path} {e : FieldError} (h : isForbiddenAt f e = true) :
    e.Field = f := by
  simp only [isForbiddenAt, decide_eq_true_eq] at h
  exact h.2

theorem isAt_field {f : Path} {e : FieldError} (h : isAt f e = true) : e.Field = f := by
  simpa [isAt] using h

/-- C3: after `StorageClassStrategy.PrepareForUpdate` the proposed record equals
the old record in its metadata, in every field of its spec other than the
storage class name, and in its status; the storage class name is the one the
caller proposed; the old record is as it was. -/
theorem storageClass_prepareForUpdate_resets (obj old : PersistentVolumeClaim) :
    let r := persistentvolumeclaimStorageClassStrategy.PrepareForUpdate obj old
    r.1.TypeMeta = old.TypeMeta ∧ r.1.ObjectMeta = old.ObjectMeta ∧
    r.1.Status = old.Status ∧
    r.1.Spec.AccessModes = old.Spec.AccessModes ∧
    r.1.Spec.Selector = old.Spec.Selector ∧
    r.1.Spec.Resources = old.Spec.Resources ∧
    r.1.Spec.VolumeName = old.Spec.VolumeName ∧
    r.1.Spec.VolumeMode = old.Spec.VolumeMode ∧
    r.1.Spec.DataSource = old.Spec.DataSource ∧
    r.1.Spec.DataSourceRef = old.Spec.DataSourceRef ∧
    r.1.Spec.VolumeAttributesClassName = old.Spec.VolumeAttributesClassName ∧
    r.1.Spec.StorageClassName = obj.Spec.StorageClassName ∧
    r.2 = old := by
  simp [persistentvolumeclaimStorageClassStrategy.PrepareForUpdate]

/-- C4: after `Strategy.PrepareForCreate` the status of the record is the empty
status (no phase, no capacity, no conditions), whatever the caller supplied. -/
theorem prepareForCreate_status_empty (G : FeatureGates) (obj : PersistentVolumeClaim) :
    (persistentvolumeclaimStrategy.PrepareForCreate G obj).Status =
        PersistentVolumeClaimStatus.empty ∧
    (persistentvolumeclaimStrategy.PrepareForCreate G obj).Status.Phase = "" ∧
    (persistentvolumeclaimStrategy.PrepareForCreate G obj).Status.Capacity = none ∧
    (persistentvolumeclaimStrategy.PrepareForCreate G obj).Status.Conditions = [] := by
  simp [persistentvolumeclaimStrategy.PrepareForCreate, PersistentVolumeClaimStatus.empty]

/-- C5: after the main `Strategy.PrepareForUpdate` the status of the proposed
record is the status of the old record, whatever the caller supplied. -/
theorem prepareForUpdate_status_from_old (G : FeatureGates) (obj old : PersistentVolumeClaim) :
    (persistentvolumeclaimStrategy.PrepareForUpdate G obj old).1.Status = old.Status := by
  simp [persistentvolumeclaimStrategy.PrepareForUpdate]

/-- C6: after `StatusStrategy.PrepareForUpdate` the spec of the proposed record
is the spec of the old record, the old record is unchanged, and the conditions
of the proposed record are those the caller supplied. -/
theorem status_prepareForUpdate_spec_from_old (G : FeatureGates)
    (obj old : PersistentVolumeClaim) :
    let r := persistentvolumeclaimStatusStrategy.PrepareForUpdate G obj old
    r.1.Spec = old.Spec ∧ r.2 = old ∧ r.1.Status.Conditions = obj.Status.Conditions := by
  simp only [persistentvolumeclaimStatusStrategy.PrepareForUpdate, DropDisabledFieldsFromStatus]
  refine ⟨trivial, trivial, ?_⟩
  split_ifs <;> rfl

/-- C1: the error "storage class is not changing" is a Forbidden error at
`spec.storageClassName`; `StorageClassStrategy.ValidateUpdate` returns it when
the old and the new storage class name are equal (both unset, or set to the
same string); when they differ the strategy does not produce it: it occurs in
the result only as often as the generic validator and the metadata validator
report it themselves. -/
theorem storageClass_validateUpdate_not_changing (X : Externals) (G : FeatureGates)
    (obj old : PersistentVolumeClaim) :
    (storageClassNotChanging.ErrType = ErrorType.ErrorTypeForbidden ∧
      storageClassNotChanging.Field = ["spec", "storageClassName"]) ∧
    (old.Spec.StorageClassName = obj.Spec.StorageClassName →
      storageClassNotChanging ∈
        persistentvolumeclaimStorageClassStrategy.ValidateUpdate X G obj old) ∧
    (old.Spec.StorageClassName ≠ obj.Spec.StorageClassName →
      (persistentvolumeclaimStorageClassStrategy.ValidateUpdate X G obj old).count
          storageClassNotChanging =
        (X.ValidatePersistentVolumeClaim obj
            (X.ValidationOptionsForPersistentVolumeClaim obj (some old))).count
          storageClassNotChanging +
        (X.ValidateObjectMetaUpdate obj.ObjectMeta old.ObjectMeta ["metadata"]).count
          storageClassNotChanging) := by
  refine ⟨⟨rfl, rfl⟩, ?_, ?_⟩
  · intro h
    simp [persistentvolumeclaimStorageClassStrategy.ValidateUpdate, h]
  · intro h
    have hne : ∀ e : FieldError, (e == storageClassNotChanging) = true →
        e.Field = ["spec", "storageClassName"] := by
      intro e he
      rw [beq_iff_eq] at he
      subst he
      rfl
    have h1 := countP_eq_zero_of_field (p := fun e => e == storageClassNotChanging)
      (specImmutableErrs_field X obj old)
      (fun e he => by rw [hne e he]; decide)
    have h2 := countP_eq_zero_of_field (p := fun e => e == storageClassNotChanging)
      (fun e he => (storageSizeErrs_field obj old
        (X.ValidationOptionsForPersistentVolumeClaim obj (some old)) e he).1)
      (fun e he => by rw [hne e he]; decide)
    have h3 := countP_eq_zero_of_field (p := fun e => e == storageClassNotChanging)
      (fun e he => (validateImmutableField_field obj.Spec.VolumeMode old.Spec.VolumeMode
        ["volumeMode"] e he).1)
      (fun e he => by rw [hne e he]; decide)
    have h4 := countP_eq_zero_of_field (p := fun e => e == storageClassNotChanging)
      (volumeAttributesClassErrs_field G obj old
        (X.ValidationOptionsForPersistentVolumeClaim obj (some old)))
      (fun e he => by rw [hne e he]; decide)
    simp only [persistentvolumeclaimStorageClassStrategy.ValidateUpdate,
      validatePersistentVolumeClaimUpdateForStorageClassSubresource, if_neg h,
      List.count, List.countP_append, List.nil_append, NewPath, List.countP_nil] at *
    omega

/-- C2: for a generic validator that requires the storage request, and every
pair of records accepted by the generic validator and by the metadata-update
validator in which the storage class name differs and no other field does,
`StorageClassStrategy.ValidateUpdate` returns the empty list. -/
theorem storageClass_validateUpdate_only_class (X : Externals) (G : FeatureGates)
    (obj old : PersistentVolumeClaim)
    (hreq : ∀ p opts, X.ValidatePersistentVolumeClaim p opts = [] →
      (lookupEntry ResourceStorage p.Spec.Resources.Requests.entries).isSome = true)
    (hsame : obj = withStorageClass old obj.Spec.StorageClassName)
    (hcls : old.Spec.StorageClassName ≠ obj.Spec.StorageClassName)
    (hgen : X.ValidatePersistentVolumeClaim obj
      (X.ValidationOptionsForPersistentVolumeClaim obj (some old)) = [])
    (hmeta : X.ValidateObjectMetaUpdate obj.ObjectMeta old.ObjectMeta ["metadata"] = []) :
    persistentvolumeclaimStorageClassStrategy.ValidateUpdate X G obj old = [] := by
  have hst := hreq _ _ hgen
  have hres : obj.Spec.Resources = old.Spec.Resources := by rw [hsame]; rfl
  have hvm : obj.Spec.VolumeMode = old.Spec.VolumeMode := by rw [hsame]; rfl
  have hvac : old.Spec.VolumeAttributesClassName = obj.Spec.VolumeAttributesClassName := by
    rw [hsame]; rfl
  rw [hres] at hst
  have hspec : specImmutableErrs X obj old = [] := by
    rw [hsame]
    exact specImmutableErrs_only_class X old _ hst
  have hsize : storageSizeErrs obj old
      (X.ValidationOptionsForPersistentVolumeClaim obj (some old)) = [] := by
    unfold storageSizeErrs
    simp [hres, Quantity.Cmp]
  have hmode : ValidateImmutableField obj.Spec.VolumeMode old.Spec.VolumeMode ["volumeMode"]
      = [] := by
    rw [validateImmutableField_eq, if_pos hvm]
  have hcl : volumeAttributesClassErrs G obj old
      (X.ValidationOptionsForPersistentVolumeClaim obj (some old)) = [] := by
    unfold volumeAttributesClassErrs
    simp [hvac]
  simp only [persistentvolumeclaimStorageClassStrategy.ValidateUpdate,
    validatePersistentVolumeClaimUpdateForStorageClassSubresource, if_neg hcls, hgen, NewPath,
    hmeta, hspec, hsize, hmode, hcl, List.append_nil]

/-- Witness of C2: the valid case of `TestStorageClassStrategy`, class "fast"
changed to "slow" on a pending 10G claim. -/
theorem storageClass_validateUpdate_only_class_witness :
    persistentvolumeclaimStorageClassStrategy.ValidateUpdate exampleExternals gatesOff
      (claimWithClass "slow") (claimWithClass "fast") = [] :=
  storageClass_validateUpdate_only_class exampleExternals gatesOff
    (claimWithClass "slow") (claimWithClass "fast")
    (by
      intro p opts h
      simp only [exampleExternals] at h
      split_ifs at h with hs
      exact hs)
    (by decide) (by decide) (by decide) (by decide)

/-- Witness of C1: the invalid case of `TestStorageClassStrategy`, class "fast"
on both records. -/
theorem storageClass_validateUpdate_not_changing_witness :
    storageClassNotChanging ∈
      persistentvolumeclaimStorageClassStrategy.ValidateUpdate exampleExternals gatesOff
        (claimWithClass "fast") (claimWithClass "fast") :=
  (storageClass_validateUpdate_not_changing exampleExternals gatesOff
    (claimWithClass "fast") (claimWithClass "fast")).2.1 rfl

/-- C7: the subresource validation adds one Forbidden error at
`spec.resources.requests.storage` exactly when the new storage request is
strictly smaller than the old one and either recovery from expansion failure is
off or the new request is at most the storage capacity in the old status; it
adds none otherwise (so none when the request grows or stays equal) and never
more than one.  Old 10 and new 5 give the error with recovery off, and with
recovery on and capacity 8; they give none with recovery on and capacity 3. -/
theorem storage_size_decrease_rule :
    (∀ (X : Externals) (G : FeatureGates) (n o : PersistentVolumeClaim)
        (opts : PersistentVolumeClaimSpecValidationOptions),
      (validatePersistentVolumeClaimUpdateForStorageClassSubresource X G n o opts).countP
          (isForbiddenAt storageRequestPath) =
        (X.ValidateObjectMetaUpdate n.ObjectMeta o.ObjectMeta ["metadata"]).countP
          (isForbiddenAt storageRequestPath) +
        (if (storageOf n.Spec.Resources.Requests).value <
              (storageOf o.Spec.Resources.Requests).value ∧
            (opts.EnableRecoverFromExpansionFailure = false ∨
              (storageOf n.Spec.Resources.Requests).value ≤
                (storageOf o.Status.Capacity).value)
         then 1 else 0)) ∧
    (validatePersistentVolumeClaimUpdateForStorageClassSubresource exampleExternals gatesOff
        (withRequests (claimWithClass "slow") (storageRequest 5))
        (withRequests (claimWithClass "fast") (storageRequest 10))
        (optsRecover false)).countP (isForbiddenAt storageRequestPath) = 1 ∧
    (validatePersistentVolumeClaimUpdateForStorageClassSubresource exampleExternals gatesOff
        (withRequests (claimWithClass "slow") (storageRequest 5))
        (withCapacity (withRequests (claimWithClass "fast") (storageRequest 10)) 8)
        (optsRecover true)).countP (isForbiddenAt storageRequestPath) = 1 ∧
    (validatePersistentVolumeClaimUpdateForStorageClassSubresource exampleExternals gatesOff
        (withRequests (claimWithClass "slow") (storageRequest 5))
        (withCapacity (withRequests (claimWithClass "fast") (storageRequest 10)) 3)
        (optsRecover true)).countP (isForbiddenAt storageRequestPath) = 0 := by
  refine ⟨?_, by decide, by decide, by decide⟩
  intro X G n o opts
  have h1 := countP_eq_zero_of_field (p := isForbiddenAt storageRequestPath)
    (specImmutableErrs_field X n o)
    (fun e he => by rw [isForbiddenAt_field he]; decide)
  have h3 := countP_eq_zero_of_field (p := isForbiddenAt storageRequestPath)
    (fun e he => (validateImmutableField_field n.Spec.VolumeMode o.Spec.VolumeMode
      ["volumeMode"] e he).1)
    (fun e he => by rw [isForbiddenAt_field he]; decide)
  have h4 := countP_eq_zero_of_field (p := isForbiddenAt storageRequestPath)
    (volumeAttributesClassErrs_field G n o opts)
    (fun e he => by rw [isForbiddenAt_field he]; decide)
  rw [validate_countP, h1, h3, h4, storageSizeErrs_countP]
  simp

/-- C8 (as stated, refuted): with recovery from expansion failure on,
a bound claim whose request shrinks from 10 to 8 while the recorded capacity is
8 is refused, with the message "field can not be less than status.capacity",
although 8 is not less than the capacity. -/
theorem shrink_to_capacity_refused :
    validatePersistentVolumeClaimUpdateForStorageClassSubresource exampleExternals gatesOff
      (withPhase (withRequests (claimWithClass "slow") (storageRequest 8)) ClaimBound)
      (withCapacity
        (withPhase (withRequests (claimWithClass "fast") (storageRequest 10)) ClaimBound) 8)
      (optsRecover true) =
    [Forbidden storageRequestPath "field can not be less than status.capacity"] := by
  decide

/-- C8 (amended): with recovery from expansion failure on, a storage request
may shrink to any size strictly above the recorded capacity: when the new
request is smaller than the old one and larger than the storage capacity in the
old status, the subresource validation adds no Forbidden error at
`spec.resources.requests.storage`; when it equals that capacity, the request is
refused with "field can not be less than status.capacity". -/
theorem shrink_above_capacity_allowed (X : Externals) (G : FeatureGates)
    (n o : PersistentVolumeClaim) (opts : PersistentVolumeClaimSpecValidationOptions)
    (hrec : opts.EnableRecoverFromExpansionFailure = true)
    (hless : (storageOf n.Spec.Resources.Requests).value <
      (storageOf o.Spec.Resources.Requests).value) :
    ((storageOf o.Status.Capacity).value < (storageOf n.Spec.Resources.Requests).value →
      (validatePersistentVolumeClaimUpdateForStorageClassSubresource X G n o opts).countP
          (isForbiddenAt storageRequestPath) =
        (X.ValidateObjectMetaUpdate n.ObjectMeta o.ObjectMeta ["metadata"]).countP
          (isForbiddenAt storageRequestPath)) ∧
    ((storageOf n.Spec.Resources.Requests).value = (storageOf o.Status.Capacity).value →
      Forbidden storageRequestPath "field can not be less than status.capacity" ∈
        validatePersistentVolumeClaimUpdateForStorageClassSubresource X G n o opts) := by
  constructor
  · intro hcap
    have h1 := countP_eq_zero_of_field (p := isForbiddenAt storageRequestPath)
      (specImmutableErrs_field X n o)
      (fun e he => by rw [isForbiddenAt_field he]; decide)
    have h3 := countP_eq_zero_of_field (p := isForbiddenAt storageRequestPath)
      (fun e he => (validateImmutableField_field n.Spec.VolumeMode o.Spec.VolumeMode
        ["volumeMode"] e he).1)
      (fun e he => by rw [isForbiddenAt_field he]; decide)
    have h4 := countP_eq_zero_of_field (p := isForbiddenAt storageRequestPath)
      (volumeAttributesClassErrs_field G n o opts)
      (fun e he => by rw [isForbiddenAt_field he]; decide)
    have hc : ¬ ((storageOf n.Spec.Resources.Requests).value <
          (storageOf o.Spec.Resources.Requests).value ∧
        (opts.EnableRecoverFromExpansionFailure = false ∨
          (storageOf n.Spec.Resources.Requests).value ≤ (storageOf o.Status.Capacity).value)) := by
      rintro ⟨_, hf | hle⟩
      · rw [hrec] at hf
        exact absurd hf (by decide)
      · omega
    rw [validate_countP, h1, h3, h4, storageSizeErrs_countP, if_neg hc]
    simp
  · intro heq
    have hsize : storageSizeErrs n o opts =
        [Forbidden storageRequestPath "field can not be less than status.capacity"] := by
      unfold storageSizeErrs
      unfold storageOf at hless heq
      simp only [quantity_cmp_neg_iff, quantity_cmp_nonpos_iff]
      rw [if_pos hless]
      simp [hrec, heq, NewPath, storageRequestPath]
    simp only [validatePersistentVolumeClaimUpdateForStorageClassSubresource, hsize,
      List.mem_append, List.mem_singleton]
    tauto

/-- Witness of C8 (amended): a bound claim whose request shrinks from 10 to 9
while the recorded capacity is 8 gets no size error. -/
theorem shrink_above_capacity_allowed_witness :
    (validatePersistentVolumeClaimUpdateForStorageClassSubresource exampleExternals gatesOff
      (withPhase (withRequests (claimWithClass "slow") (storageRequest 9)) ClaimBound)
      (withCapacity
        (withPhase (withRequests (claimWithClass "fast") (storageRequest 10)) ClaimBound) 8)
      (optsRecover true)).countP (isForbiddenAt storageRequestPath) = 0 :=
  ((shrink_above_capacity_allowed exampleExternals gatesOff
    (withPhase (withRequests (claimWithClass "slow") (storageRequest 9)) ClaimBound)
    (withCapacity
      (withPhase (withRequests (claimWithClass "fast") (storageRequest 10)) ClaimBound) 8)
    (optsRecover true) rfl (by decide)).1 (by decide)).trans (by decide)

/-- C9 (as stated, refuted): the new record has no requests map, the old record
requests 10G, recovery is off; the absent size counts as zero and the size
error is reported. -/
theorem missing_requests_map_size_error :
    (withRequests (claimWithClass "slow") none).Spec.Resources.Requests = none ∧
    Forbidden storageRequestPath "field can not be less than previous value" ∈
      validatePersistentVolumeClaimUpdateForStorageClassSubresource exampleExternals gatesOff
        (withRequests (claimWithClass "slow") none) (claimWithClass "fast")
        (optsRecover false) := by
  decide

/-- C9 (amended): a record without a requests map has the size zero in the size
check.  With no requests map on the old record, one Forbidden size error is
added exactly when the new request is negative and (recovery is off or the new
request is at most the old capacity); with no requests map on the new record,
exactly when the old request is positive and (recovery is off or the old
capacity is not negative). -/
theorem missing_requests_map_is_zero (X : Externals) (G : FeatureGates)
    (n o : PersistentVolumeClaim) (opts : PersistentVolumeClaimSpecValidationOptions) :
    (o.Spec.Resources.Requests = none →
      (validatePersistentVolumeClaimUpdateForStorageClassSubresource X G n o opts).countP
          (isForbiddenAt storageRequestPath) =
        (X.ValidateObjectMetaUpdate n.ObjectMeta o.ObjectMeta ["metadata"]).countP
          (isForbiddenAt storageRequestPath) +
        (if (storageOf n.Spec.Resources.Requests).value < 0 ∧
            (opts.EnableRecoverFromExpansionFailure = false ∨
              (storageOf n.Spec.Resources.Requests).value ≤
                (storageOf o.Status.Capacity).value)
         then 1 else 0)) ∧
    (n.Spec.Resources.Requests = none →
      (validatePersistentVolumeClaimUpdateForStorageClassSubresource X G n o opts).countP
          (isForbiddenAt storageRequestPath) =
        (X.ValidateObjectMetaUpdate n.ObjectMeta o.ObjectMeta ["metadata"]).countP
          (isForbiddenAt storageRequestPath) +
        (if 0 < (storageOf o.Spec.Resources.Requests).value ∧
            (opts.EnableRecoverFromExpansionFailure = false ∨
              0 ≤ (storageOf o.Status.Capacity).value)
         then 1 else 0)) := by
  have h1 := countP_eq_zero_of_field (p := isForbiddenAt storageRequestPath)
    (specImmutableErrs_field X n o)
    (fun e he => by rw [isForbiddenAt_field he]; decide)
  have h3 := countP_eq_zero_of_field (p := isForbiddenAt storageRequestPath)
    (fun e he => (validateImmutableField_field n.Spec.VolumeMode o.Spec.VolumeMode
      ["volumeMode"] e he).1)
    (fun e he => by rw [isForbiddenAt_field he]; decide)
  have h4 := countP_eq_zero_of_field (p := isForbiddenAt storageRequestPath)
    (volumeAttributesClassErrs_field G n o opts)
    (fun e he => by rw [isForbiddenAt_field he]; decide)
  have hz : (storageOf none).value = 0 := rfl
  constructor
  · intro h
    rw [validate_countP, h1, h3, h4, storageSizeErrs_countP, h, hz]
    simp
  · intro h
    rw [validate_countP, h1, h3, h4, storageSizeErrs_countP, h, hz]
    simp

/-- Witness of C9 (amended): no requests map on the new record, 10G on the old
one, recovery off: one size error. -/
theorem missing_requests_map_is_zero_witness :
    (validatePersistentVolumeClaimUpdateForStorageClassSubresource exampleExternals gatesOff
        (withRequests (claimWithClass "slow") none) (claimWithClass "fast")
        (optsRecover false)).countP (isForbiddenAt storageRequestPath) = 1 :=
  ((missing_requests_map_is_zero exampleExternals gatesOff
    (withRequests (claimWithClass "slow") none) (claimWithClass "fast")
    (optsRecover false)).2 rfl).trans (by decide)

/-- C10 (as stated, refuted): the volume mode goes from Filesystem to Block; the
subresource validation reports no Forbidden error at `volumeMode`: the one
error it reports there is of type Invalid. -/
theorem volumeMode_change_not_forbidden :
    (validatePersistentVolumeClaimUpdateForStorageClassSubresource exampleExternals gatesOff
        (withVolumeMode (claimWithClass "slow") (some "Block"))
        (withVolumeMode (claimWithClass "fast") (some "Filesystem"))
        (optsRecover false)).countP (isForbiddenAt ["volumeMode"]) = 0 ∧
    (validatePersistentVolumeClaimUpdateForStorageClassSubresource exampleExternals gatesOff
        (withVolumeMode (claimWithClass "slow") (some "Block"))
        (withVolumeMode (claimWithClass "fast") (some "Filesystem"))
        (optsRecover false)).filter (isAt ["volumeMode"]) =
      [Invalid ["volumeMode"] "field is immutable"] := by
  decide

/-- C10 (amended): the subresource validation adds the Invalid error "field is
immutable" at `volumeMode` exactly when the volume modes of the two records
differ, whatever the feature gates, the validation options and the phase; when
they are equal it adds no error at `volumeMode`; it never adds a Forbidden
error at `volumeMode`. -/
theorem volumeMode_change_invalid (X : Externals) (G : FeatureGates)
    (n o : PersistentVolumeClaim) (opts : PersistentVolumeClaimSpecValidationOptions) :
    (n.Spec.VolumeMode ≠ o.Spec.VolumeMode →
      Invalid ["volumeMode"] "field is immutable" ∈
        validatePersistentVolumeClaimUpdateForStorageClassSubresource X G n o opts) ∧
    ((validatePersistentVolumeClaimUpdateForStorageClassSubresource X G n o opts).countP
        (isAt ["volumeMode"]) =
      (X.ValidateObjectMetaUpdate n.ObjectMeta o.ObjectMeta ["metadata"]).countP
        (isAt ["volumeMode"]) +
      (if n.Spec.VolumeMode ≠ o.Spec.VolumeMode then 1 else 0)) ∧
    ((validatePersistentVolumeClaimUpdateForStorageClassSubresource X G n o opts).countP
        (isForbiddenAt ["volumeMode"]) =
      (X.ValidateObjectMetaUpdate n.ObjectMeta o.ObjectMeta ["metadata"]).countP
        (isForbiddenAt ["volumeMode"])) := by
  refine ⟨?_, ?_, ?_⟩
  · intro h
    simp [validatePersistentVolumeClaimUpdateForStorageClassSubresource,
      validateImmutableField_eq, h, NewPath]
  · have h1 := countP_eq_zero_of_field (p := isAt ["volumeMode"])
      (specImmutableErrs_field X n o)
      (fun e he => by rw [isAt_field he]; decide)
    have h2 := countP_eq_zero_of_field (p := isAt ["volumeMode"])
      (fun e he => (storageSizeErrs_field n o opts e he).1)
      (fun e he => by rw [isAt_field he]; decide)
    have h4 := countP_eq_zero_of_field (p := isAt ["volumeMode"])
      (volumeAttributesClassErrs_field G n o opts)
      (fun e he => by rw [isAt_field he]; decide)
    rw [validate_countP, h1, h2, h4, validateImmutableField_eq]
    by_cases h : n.Spec.VolumeMode = o.Spec.VolumeMode
    · simp [h]
    · simp [h, isAt, Invalid]
  · have h1 := countP_eq_zero_of_field (p := isForbiddenAt ["volumeMode"])
      (specImmutableErrs_field X n o)
      (fun e he => by rw [isForbiddenAt_field he]; decide)
    have h2 := countP_eq_zero_of_field (p := isForbiddenAt ["volumeMode"])
      (fun e he => (storageSizeErrs_field n o opts e he).1)
      (fun e he => by rw [isForbiddenAt_field he]; decide)
    have h4 := countP_eq_zero_of_field (p := isForbiddenAt ["volumeMode"])
      (volumeAttributesClassErrs_field G n o opts)
      (fun e he => by rw [isForbiddenAt_field he]; decide)
    have h3 : (ValidateImmutableField n.Spec.VolumeMode o.Spec.VolumeMode
        ["volumeMode"]).countP (isForbiddenAt ["volumeMode"]) = 0 := by
      rw [List.countP_eq_zero]
      intro e he hp
      have ht := (validateImmutableField_field _ _ _ e he).2
      simp only [isForbiddenAt, decide_eq_true_eq] at hp
      rw [ht] at hp
      exact absurd hp.1 (by decide)
    rw [validate_countP, h1, h2, h3, h4]
    simp

/-- Witness of C10 (amended): a claim whose volume mode goes from Filesystem to
Block, with every gate off, gets the Invalid error. -/
theorem volumeMode_change_invalid_witness :
    Invalid ["volumeMode"] "field is immutable" ∈
      validatePersistentVolumeClaimUpdateForStorageClassSubresource exampleExternals gatesOff
        (withVolumeMode (claimWithClass "slow") (some "Block"))
        (withVolumeMode (claimWithClass "fast") (some "Filesystem"))
        (optsRecover false) :=
  (volumeMode_change_invalid exampleExternals gatesOff
    (withVolumeMode (claimWithClass "slow") (some "Block"))
    (withVolumeMode (claimWithClass "fast") (some "Filesystem"))
    (optsRecover false)).1 (by decide)

/-! ### The two clones of the immutability check -/

theorem lookupEntry_assignEntry_self {β : Type} (k : String) (v : β) (es : List (String × β)) :
    lookupEntry k (assignEntry k v es) = some v := by
  induction es with
  | nil => simp [assignEntry, lookupEntry]
  | cons hd t ih =>
    obtain ⟨k1, v1⟩ := hd
    by_cases hk : k1 = k
    · simp [assignEntry, lookupEntry, hk]
    · simp [assignEntry, lookupEntry, hk, ih]

theorem assignEntry_assignEntry {β : Type} (k : String) (v w : β) (es : List (String × β)) :
    assignEntry k v (assignEntry k w es) = assignEntry k v es := by
  induction es with
  | nil => simp [assignEntry]
  | cons hd t ih =>
    obtain ⟨k1, v1⟩ := hd
    by_cases hk : k1 = k
    · simp [assignEntry, hk]
    · simp [assignEntry, hk, ih]

theorem spec_semanticEq_iff (a b : PersistentVolumeClaimSpec) :
    a.semanticEq b = true ↔
      a.AccessModes = b.AccessModes ∧
      semanticEqPtr LabelSelector.semanticEq a.Selector b.Selector = true ∧
      GoMap.semanticEq Quantity.semanticEq a.Resources.Limits b.Resources.Limits = true ∧
      GoMap.semanticEq Quantity.semanticEq a.Resources.Requests b.Resources.Requests = true ∧
      a.VolumeName = b.VolumeName ∧
      a.StorageClassName = b.StorageClassName ∧
      a.VolumeMode = b.VolumeMode ∧
      a.DataSource = b.DataSource ∧
      a.DataSourceRef = b.DataSourceRef ∧
      a.VolumeAttributesClassName = b.VolumeAttributesClassName := by
  simp only [PersistentVolumeClaimSpec.semanticEq, Bool.and_eq_true, decide_eq_true_eq,
    and_assoc]

/-- The old clone is the old spec with the proposed storage class name, and
with the proposed volume name when the old one is empty. -/
theorem oldPvcCloneSpec_eq (n o : PersistentVolumeClaim) :
    oldPvcCloneSpec n o =
      { o.Spec with
        VolumeName := if o.Spec.VolumeName.length = 0 then n.Spec.VolumeName
          else o.Spec.VolumeName,
        StorageClassName := n.Spec.StorageClassName } := by
  unfold oldPvcCloneSpec
  split_ifs <;> rfl

/-- The new clone is the proposed spec with, for a bound claim, the old storage
request written into its requests map and a set attributes class name replaced
by the old one. -/
theorem newPvcCloneSpec_eq (n o : PersistentVolumeClaim) :
    newPvcCloneSpec n o =
      { n.Spec with
        Resources := { n.Spec.Resources with Requests := newCloneRequests n o },
        VolumeAttributesClassName :=
          if n.Status.Phase = ClaimBound ∧ n.Spec.VolumeAttributesClassName ≠ none then
            o.Spec.VolumeAttributesClassName
          else n.Spec.VolumeAttributesClassName } := by
  obtain ⟨tm, om, ⟨am, sel, ⟨lim, req⟩, vn, sc, vm, ds, dsr, vac⟩, st⟩ := n
  unfold newPvcCloneSpec newCloneRequests storageOf
  simp only [oldPvcCloneSpec_eq]
  by_cases hb : st.Phase = ClaimBound <;> cases req <;> cases vac <;> simp [hb]

theorem specImmutableErrs_eq (X : Externals) (n o : PersistentVolumeClaim) :
    specImmutableErrs X n o =
      if (newPvcCloneSpec n o).semanticEq (oldPvcCloneSpec n o) = true then []
      else [Forbidden ["spec"] (specImmutableDetail X n o)] := by
  unfold specImmutableErrs specImmutableDetail
  by_cases h : (newPvcCloneSpec n o).semanticEq (oldPvcCloneSpec n o) = true
  · simp [h]
  · simp [h, NewPath]

theorem storageOf_of_lookup (m : ResourceList) (q : Quantity)
    (h : lookupEntry ResourceStorage m.entries = some q) : storageOf m = q := by
  simp [storageOf, GoMap.index, h]

theorem requests_of_lookup (m : ResourceList) (q : Quantity)
    (h : lookupEntry ResourceStorage m.entries = some q) : m = some m.entries := by
  cases m with
  | none => simp [GoMap.entries, lookupEntry] at h
  | some es => rfl

/-- For a bound claim whose old record has a storage request, the requests map
of the new clone of a resized record is the old requests map. -/
theorem newCloneRequests_resized (old : PersistentVolumeClaim) (cls : Option String)
    (q0 q : Quantity) (hb : old.Status.Phase = ClaimBound)
    (hq0 : lookupEntry ResourceStorage old.Spec.Resources.Requests.entries = some q0) :
    newCloneRequests (withStorageRequest (withStorageClass old cls) q) old =
      old.Spec.Resources.Requests := by
  have hst := storageOf_of_lookup _ _ hq0
  have hm := requests_of_lookup _ _ hq0
  unfold newCloneRequests
  simp only [withStorageRequest, withRequests, withStorageClass, hb, decide_True, hst,
    assignEntry_assignEntry, assignEntry_of_lookup _ _ _ hq0]
  exact hm.symm

/-- C11: for a bound claim whose old record has a storage request, an update
that changes the storage class name and raises the storage request, and
nothing else, gets no error from the subresource validation beyond those of
the metadata validator; so `StorageClassStrategy.ValidateUpdate` returns no
error when the generic validator and the metadata validator accept. -/
theorem bound_class_and_resize_accepted (X : Externals) (G : FeatureGates)
    (old : PersistentVolumeClaim) (cls : Option String) (q0 q : Quantity)
    (opts : PersistentVolumeClaimSpecValidationOptions)
    (hb : old.Status.Phase = ClaimBound)
    (hq0 : lookupEntry ResourceStorage old.Spec.Resources.Requests.entries = some q0)
    (hgrow : q0.value < q.value) :
    validatePersistentVolumeClaimUpdateForStorageClassSubresource X G
        (withStorageRequest (withStorageClass old cls) q) old opts =
      X.ValidateObjectMetaUpdate old.ObjectMeta old.ObjectMeta ["metadata"] ∧
    (old.Spec.StorageClassName ≠ cls →
      X.ValidatePersistentVolumeClaim (withStorageRequest (withStorageClass old cls) q)
        (X.ValidationOptionsForPersistentVolumeClaim
          (withStorageRequest (withStorageClass old cls) q) (some old)) = [] →
      X.ValidateObjectMetaUpdate old.ObjectMeta old.ObjectMeta ["metadata"] = [] →
      persistentvolumeclaimStorageClassStrategy.ValidateUpdate X G
        (withStorageRequest (withStorageClass old cls) q) old = []) := by
  have hspec : ∀ o2 : PersistentVolumeClaimSpecValidationOptions,
      validatePersistentVolumeClaimUpdateForStorageClassSubresource X G
        (withStorageRequest (withStorageClass old cls) q) old o2 =
      X.ValidateObjectMetaUpdate old.ObjectMeta old.ObjectMeta ["metadata"] := by
    intro o2
    have h1 : specImmutableErrs X (withStorageRequest (withStorageClass old cls) q) old = [] := by
      rw [specImmutableErrs_eq, if_pos]
      rw [spec_semanticEq_iff, newPvcCloneSpec_eq, oldPvcCloneSpec_eq]
      rw [newCloneRequests_resized old cls q0 q hb hq0]
      refine ⟨rfl, semanticEqPtr_refl _ labelSelector_semanticEq_refl _,
        goMap_semanticEq_refl _ quantity_semanticEq_refl _,
        goMap_semanticEq_refl _ quantity_semanticEq_refl _, ?_, rfl, rfl, rfl, rfl, ?_⟩
      · show old.Spec.VolumeName = _
        split_ifs <;> rfl
      · show (if _ then _ else old.Spec.VolumeAttributesClassName) = _
        split_ifs <;> rfl
    have h2 : storageSizeErrs (withStorageRequest (withStorageClass old cls) q) old o2 = [] := by
      have hn : storageOf (withStorageRequest (withStorageClass old cls) q).Spec.Resources.Requests
          = q := by
        apply storageOf_of_lookup
        simp [withStorageRequest, withRequests, GoMap.entries, lookupEntry_assignEntry_self]
      have ho := storageOf_of_lookup _ _ hq0
      unfold storageSizeErrs
      unfold storageOf at hn ho
      simp only [hn, ho, quantity_cmp_neg_iff]
      rw [if_neg (by omega)]
    have h3 : ValidateImmutableField
        (withStorageRequest (withStorageClass old cls) q).Spec.VolumeMode old.Spec.VolumeMode
        ["volumeMode"] = [] := by
      rw [validateImmutableField_eq]
      exact if_pos rfl
    have h4 : volumeAttributesClassErrs G (withStorageRequest (withStorageClass old cls) q) old o2
        = [] := by
      unfold volumeAttributesClassErrs
      rw [if_neg]
      exact fun h => h rfl
    simp only [validatePersistentVolumeClaimUpdateForStorageClassSubresource, h1, h2, h3, h4,
      NewPath, List.append_nil]
    rfl
  refine ⟨hspec opts, ?_⟩
  intro hcls hgen hmeta
  have hcls2 : ¬ old.Spec.StorageClassName =
      (withStorageRequest (withStorageClass old cls) q).Spec.StorageClassName := hcls
  simp only [persistentvolumeclaimStorageClassStrategy.ValidateUpdate, if_neg hcls2, hgen,
    hspec, hmeta, List.append_nil]

/-- Witness of C11: a bound claim of class "fast" that requests 10 units, moved
to class "slow" and 20 units. -/
theorem bound_class_and_resize_accepted_witness :
    persistentvolumeclaimStorageClassStrategy.ValidateUpdate exampleExternals gatesOff
      (withStorageRequest
        (withStorageClass (withPhase (withRequests (claimWithClass "fast") (storageRequest 10))
          ClaimBound) (some "slow")) (units 20))
      (withPhase (withRequests (claimWithClass "fast") (storageRequest 10)) ClaimBound) = [] :=
  (bound_class_and_resize_accepted exampleExternals gatesOff
    (withPhase (withRequests (claimWithClass "fast") (storageRequest 10)) ClaimBound)
    (some "slow") (units 10) (units 20) (optsRecover false)
    (by decide) (by decide) (by decide)).2 (by decide) (by decide) (by decide)

theorem storageSizeErrs_of_not_less (n o : PersistentVolumeClaim)
    (opts : PersistentVolumeClaimSpecValidationOptions)
    (h : ¬ (storageOf n.Spec.Resources.Requests).value <
      (storageOf o.Spec.Resources.Requests).value) :
    storageSizeErrs n o opts = [] := by
  unfold storageSizeErrs
  unfold storageOf at h
  simp only [quantity_cmp_neg_iff]
  rw [if_neg h]

theorem volumeAttributesClassErrs_of_same (G : FeatureGates) (n o : PersistentVolumeClaim)
    (opts : PersistentVolumeClaimSpecValidationOptions)
    (h : o.Spec.VolumeAttributesClassName = n.Spec.VolumeAttributesClassName) :
    volumeAttributesClassErrs G n o opts = [] := by
  unfold volumeAttributesClassErrs
  rw [if_neg]
  exact fun hne => hne h

theorem storageOf_withStorageRequest (pvc : PersistentVolumeClaim) (q : Quantity) :
    storageOf (withStorageRequest pvc q).Spec.Resources.Requests = q := by
  apply storageOf_of_lookup
  simp [withStorageRequest, withRequests, GoMap.entries, lookupEntry_assignEntry_self]

/-- C12 (as stated, refuted): a bound claim moved from class "fast" to "slow",
from 10 to 20 units and from volume mode Filesystem to Block.  The returned
list holds two errors; its one Forbidden error is at `spec`, not at
`volumeMode`, and the error at `volumeMode` is of type Invalid. -/
theorem bound_volumeMode_change_two_errors :
    (persistentvolumeclaimStorageClassStrategy.ValidateUpdate exampleExternals gatesOff
      (withVolumeMode
        (withStorageRequest
          (withStorageClass
            (withVolumeMode
              (withPhase (withRequests (claimWithClass "fast") (storageRequest 10)) ClaimBound)
              (some "Filesystem"))
            (some "slow"))
          (units 20))
        (some "Block"))
      (withVolumeMode
        (withPhase (withRequests (claimWithClass "fast") (storageRequest 10)) ClaimBound)
        (some "Filesystem"))).map (fun e => (e.ErrType, e.Field)) =
    [(ErrorType.ErrorTypeForbidden, ["spec"]), (ErrorType.ErrorTypeInvalid, ["volumeMode"])] := by
  decide

/-- C12 (amended): for a claim, bound or not, whose old record has a storage
request, an update that changes the storage class name, raises the storage
request and changes the volume mode, and nothing else, gets exactly two errors
from the subresource validation beyond those of the metadata validator: the
Forbidden error at `spec` of the immutability check, then the Invalid error at
`volumeMode`.  They are the whole result of `ValidateUpdate` when the generic
validator and the metadata validator accept. -/
theorem bound_volumeMode_change_rejected (X : Externals) (G : FeatureGates)
    (old : PersistentVolumeClaim) (cls mode : Option String) (q0 q : Quantity)
    (opts : PersistentVolumeClaimSpecValidationOptions)
    (hq0 : lookupEntry ResourceStorage old.Spec.Resources.Requests.entries = some q0)
    (hgrow : q0.value < q.value)
    (hmode : mode ≠ old.Spec.VolumeMode) :
    validatePersistentVolumeClaimUpdateForStorageClassSubresource X G
        (withVolumeMode (withStorageRequest (withStorageClass old cls) q) mode) old opts =
      X.ValidateObjectMetaUpdate old.ObjectMeta old.ObjectMeta ["metadata"] ++
      [Forbidden ["spec"] (specImmutableDetail X
          (withVolumeMode (withStorageRequest (withStorageClass old cls) q) mode) old),
        Invalid ["volumeMode"] "field is immutable"] ∧
    (old.Spec.StorageClassName ≠ cls →
      X.ValidatePersistentVolumeClaim
        (withVolumeMode (withStorageRequest (withStorageClass old cls) q) mode)
        (X.ValidationOptionsForPersistentVolumeClaim
          (withVolumeMode (withStorageRequest (withStorageClass old cls) q) mode)
          (some old)) = [] →
      X.ValidateObjectMetaUpdate old.ObjectMeta old.ObjectMeta ["metadata"] = [] →
      persistentvolumeclaimStorageClassStrategy.ValidateUpdate X G
          (withVolumeMode (withStorageRequest (withStorageClass old cls) q) mode) old =
        [Forbidden ["spec"] (specImmutableDetail X
            (withVolumeMode (withStorageRequest (withStorageClass old cls) q) mode) old),
          Invalid ["volumeMode"] "field is immutable"]) := by
  have hall : ∀ o2 : PersistentVolumeClaimSpecValidationOptions,
      validatePersistentVolumeClaimUpdateForStorageClassSubresource X G
        (withVolumeMode (withStorageRequest (withStorageClass old cls) q) mode) old o2 =
      X.ValidateObjectMetaUpdate old.ObjectMeta old.ObjectMeta ["metadata"] ++
      [Forbidden ["spec"] (specImmutableDetail X
          (withVolumeMode (withStorageRequest (withStorageClass old cls) q) mode) old),
        Invalid ["volumeMode"] "field is immutable"] := by
    intro o2
    have h1 : specImmutableErrs X
        (withVolumeMode (withStorageRequest (withStorageClass old cls) q) mode) old =
        [Forbidden ["spec"] (specImmutableDetail X
          (withVolumeMode (withStorageRequest (withStorageClass old cls) q) mode) old)] := by
      rw [specImmutableErrs_eq, if_neg]
      rw [spec_semanticEq_iff, newPvcCloneSpec_eq, oldPvcCloneSpec_eq]
      intro h
      exact hmode h.2.2.2.2.2.2.1
    have h2 : storageSizeErrs
        (withVolumeMode (withStorageRequest (withStorageClass old cls) q) mode) old o2 = [] := by
      apply storageSizeErrs_of_not_less
      have hn : storageOf
          (withVolumeMode (withStorageRequest (withStorageClass old cls) q) mode).Spec.Resources.Requests
          = q := storageOf_withStorageRequest _ q
      rw [hn, storageOf_of_lookup _ _ hq0]
      omega
    have h3 : ValidateImmutableField
        (withVolumeMode (withStorageRequest (withStorageClass old cls) q) mode).Spec.VolumeMode
        old.Spec.VolumeMode ["volumeMode"] = [Invalid ["volumeMode"] "field is immutable"] := by
      rw [validateImmutableField_eq]
      exact if_neg hmode
    have h4 : volumeAttributesClassErrs G
        (withVolumeMode (withStorageRequest (withStorageClass old cls) q) mode) old o2 = [] :=
      volumeAttributesClassErrs_of_same G _ old o2 rfl
    simp only [validatePersistentVolumeClaimUpdateForStorageClassSubresource, h1, h2, h3, h4,
      NewPath, List.append_nil, List.append_assoc]
    rfl
  refine ⟨hall opts, ?_⟩
  intro hcls hgen hmeta
  have hcls2 : ¬ old.Spec.StorageClassName =
      (withVolumeMode (withStorageRequest (withStorageClass old cls) q) mode).Spec.StorageClassName :=
    hcls
  simp only [persistentvolumeclaimStorageClassStrategy.ValidateUpdate, if_neg hcls2, hgen,
    hall, hmeta, List.nil_append]

/-- Witness of C12 (amended): the bound claim moved from "fast" to "slow", from
10 to 20 units and from Filesystem to Block. -/
theorem bound_volumeMode_change_rejected_witness :
    (persistentvolumeclaimStorageClassStrategy.ValidateUpdate exampleExternals gatesOff
      (withVolumeMode
        (withStorageRequest
          (withStorageClass
            (withVolumeMode
              (withPhase (withRequests (claimWithClass "fast") (storageRequest 10)) ClaimBound)
              (some "Filesystem"))
            (some "slow"))
          (units 20))
        (some "Block"))
      (withVolumeMode
        (withPhase (withRequests (claimWithClass "fast") (storageRequest 10)) ClaimBound)
        (some "Filesystem"))).length = 2 :=
  congrArg List.length
    ((bound_volumeMode_change_rejected exampleExternals gatesOff
      (withVolumeMode
        (withPhase (withRequests (claimWithClass "fast") (storageRequest 10)) ClaimBound)
        (some "Filesystem"))
      (some "slow") (some "Block") (units 10) (units 20) (optsRecover false)
      (by decide) (by decide) (by decide)).2 (by decide) (by decide) (by decide))

theorem string_length_eq_zero_iff (s : String) : s.length = 0 ↔ s = "" := by
  obtain ⟨l⟩ := s
  simp [String.length, String.ext_iff]

theorem volumeAttributesClassErrs_forbidden (G : FeatureGates) (n o : PersistentVolumeClaim)
    (opts : PersistentVolumeClaimSpecValidationOptions) :
    ∀ e ∈ volumeAttributesClassErrs G n o opts, e.ErrType = ErrorType.ErrorTypeForbidden := by
  intro e he
  unfold volumeAttributesClassErrs at he
  split_ifs at he <;> try split at he
  all_goals try split_ifs at he
  all_goals simp only [List.mem_append, List.mem_singleton, List.not_mem_nil, or_false,
    false_or, or_self] at he
  all_goals first
    | exact he.elim
    | (subst he; rfl)
    | (rcases he with rfl | rfl <;> rfl)

theorem volumeAttributesClassErrs_enabled (G : FeatureGates) (n o : PersistentVolumeClaim)
    (opts : PersistentVolumeClaimSpecValidationOptions)
    (hG : G.VolumeAttributesClass = true) (hO : opts.EnableVolumeAttributesClass = true) :
    (volumeAttributesClassErrs G n o opts).countP (isAt volumeAttributesClassPath) =
      if o.Spec.VolumeAttributesClassName ≠ n.Spec.VolumeAttributesClassName ∧
          o.Spec.VolumeAttributesClassName ≠ none ∧
          (n.Spec.VolumeAttributesClassName = none ∨
            n.Spec.VolumeAttributesClassName = some "")
      then 1 else 0 := by
  unfold volumeAttributesClassErrs
  cases ho : o.Spec.VolumeAttributesClassName with
  | none => cases hn : n.Spec.VolumeAttributesClassName <;> simp [hG, hO]
  | some a =>
    cases hn : n.Spec.VolumeAttributesClassName with
    | none => simp [hG, hO, isAt, Forbidden, NewPath, volumeAttributesClassPath]
    | some b =>
      by_cases hab : a = b
      · simp [hab]
      · by_cases hb : b = ""
        · subst hb
          simp [hG, hO, hab, isAt, Forbidden, NewPath, volumeAttributesClassPath]
        · have hlen : ¬ b.length = 0 := fun h => hb ((string_length_eq_zero_iff b).mp h)
          simp [hG, hO, hab, hb, hlen]

/-- C13 (as stated, refuted): the feature is on (gate and validation option) and
the attributes class name goes from the empty string, which is set but not a
non-empty value, to nil; the subresource validation reports the Forbidden error
"update from non-nil value to nil is forbidden". -/
theorem volumeAttributesClass_empty_to_nil_forbidden :
    (withVolumeAttributesClass (claimWithClass "fast")
      (some "")).Spec.VolumeAttributesClassName = some "" ∧
    Forbidden volumeAttributesClassPath "update from non-nil value to nil is forbidden" ∈
      validatePersistentVolumeClaimUpdateForStorageClassSubresource exampleExternals
        (gatesClass true)
        (withVolumeAttributesClass (claimWithClass "slow") none)
        (withVolumeAttributesClass (claimWithClass "fast") (some ""))
        (optsClass true) := by
  decide

/-- C13 (amended): in the subresource validation, an unchanged attributes class name adds
no error at `spec.volumeAttributesClassName`; a changed one, with the feature
gate off, adds the Forbidden error of the disabled gate at that path; with the
feature on (gate and validation option), a changed one adds one error exactly
when the old name is set, be it to the empty string, and the new one is nil or
the empty string, and none for every other change; every error of this check
is a Forbidden error. -/
theorem volumeAttributesClass_rules (X : Externals) (G : FeatureGates)
    (n o : PersistentVolumeClaim) (opts : PersistentVolumeClaimSpecValidationOptions) :
    (o.Spec.VolumeAttributesClassName = n.Spec.VolumeAttributesClassName →
      (validatePersistentVolumeClaimUpdateForStorageClassSubresource X G n o opts).countP
          (isAt volumeAttributesClassPath) =
        (X.ValidateObjectMetaUpdate n.ObjectMeta o.ObjectMeta ["metadata"]).countP
          (isAt volumeAttributesClassPath)) ∧
    (o.Spec.VolumeAttributesClassName ≠ n.Spec.VolumeAttributesClassName →
      G.VolumeAttributesClass = false →
      Forbidden volumeAttributesClassPath
          "update is forbidden when the VolumeAttributesClass feature gate is disabled" ∈
        validatePersistentVolumeClaimUpdateForStorageClassSubresource X G n o opts) ∧
    (G.VolumeAttributesClass = true → opts.EnableVolumeAttributesClass = true →
      (validatePersistentVolumeClaimUpdateForStorageClassSubresource X G n o opts).countP
          (isAt volumeAttributesClassPath) =
        (X.ValidateObjectMetaUpdate n.ObjectMeta o.ObjectMeta ["metadata"]).countP
          (isAt volumeAttributesClassPath) +
        (if o.Spec.VolumeAttributesClassName ≠ n.Spec.VolumeAttributesClassName ∧
            o.Spec.VolumeAttributesClassName ≠ none ∧
            (n.Spec.VolumeAttributesClassName = none ∨
              n.Spec.VolumeAttributesClassName = some "")
         then 1 else 0)) ∧
    (∀ e ∈ volumeAttributesClassErrs G n o opts,
      e.ErrType = ErrorType.ErrorTypeForbidden ∧ e.Field = volumeAttributesClassPath) := by
  have h1 := countP_eq_zero_of_field (p := isAt volumeAttributesClassPath)
    (specImmutableErrs_field X n o)
    (fun e he => by rw [isAt_field he]; decide)
  have h2 := countP_eq_zero_of_field (p := isAt volumeAttributesClassPath)
    (fun e he => (storageSizeErrs_field n o opts e he).1)
    (fun e he => by rw [isAt_field he]; decide)
  have h3 := countP_eq_zero_of_field (p := isAt volumeAttributesClassPath)
    (fun e he => (validateImmutableField_field n.Spec.VolumeMode o.Spec.VolumeMode
      ["volumeMode"] e he).1)
    (fun e he => by rw [isAt_field he]; decide)
  refine ⟨?_, ?_, ?_, ?_⟩
  · intro h
    rw [validate_countP, h1, h2, h3, volumeAttributesClassErrs_of_same G n o opts h]
    simp
  · intro hne hG
    have hmem : Forbidden volumeAttributesClassPath
        "update is forbidden when the VolumeAttributesClass feature gate is disabled" ∈
        volumeAttributesClassErrs G n o opts := by
      unfold volumeAttributesClassErrs
      rw [if_pos hne]
      simp [hG, NewPath, volumeAttributesClassPath]
    simp only [validatePersistentVolumeClaimUpdateForStorageClassSubresource, List.mem_append]
    exact Or.inr hmem
  · intro hG hO
    rw [validate_countP, h1, h2, h3, volumeAttributesClassErrs_enabled G n o opts hG hO]
    simp
  · intro e he
    exact ⟨volumeAttributesClassErrs_forbidden G n o opts e he,
      volumeAttributesClassErrs_field G n o opts e he⟩

/-- Witness of C13 (amended): with the gate off, a claim whose attributes class name goes
from "gold" to "silver" gets the Forbidden error of the disabled gate. -/
theorem volumeAttributesClass_rules_witness :
    Forbidden volumeAttributesClassPath
        "update is forbidden when the VolumeAttributesClass feature gate is disabled" ∈
      validatePersistentVolumeClaimUpdateForStorageClassSubresource exampleExternals gatesOff
        (withVolumeAttributesClass (claimWithClass "slow") (some "silver"))
        (withVolumeAttributesClass (claimWithClass "fast") (some "gold"))
        (optsRecover false) :=
  (volumeAttributesClass_rules exampleExternals gatesOff
    (withVolumeAttributesClass (claimWithClass "slow") (some "silver"))
    (withVolumeAttributesClass (claimWithClass "fast") (some "gold"))
    (optsRecover false)).2.1 (by decide) rfl

/-- The Forbidden errors at `spec` in the result of the subresource validation:
those of the metadata validator, and one more exactly when the two clones
differ. -/
theorem validate_countP_spec (X : Externals) (G : FeatureGates) (n o : PersistentVolumeClaim)
    (opts : PersistentVolumeClaimSpecValidationOptions) :
    (validatePersistentVolumeClaimUpdateForStorageClassSubresource X G n o opts).countP
        (isForbiddenAt ["spec"]) =
      (X.ValidateObjectMetaUpdate n.ObjectMeta o.ObjectMeta ["metadata"]).countP
        (isForbiddenAt ["spec"]) +
      (if (newPvcCloneSpec n o).semanticEq (oldPvcCloneSpec n o) = true then 0 else 1) := by
  have h2 := countP_eq_zero_of_field (p := isForbiddenAt ["spec"])
    (fun e he => (storageSizeErrs_field n o opts e he).1)
    (fun e he => by rw [isForbiddenAt_field he]; decide)
  have h3 := countP_eq_zero_of_field (p := isForbiddenAt ["spec"])
    (fun e he => (validateImmutableField_field n.Spec.VolumeMode o.Spec.VolumeMode
      ["volumeMode"] e he).1)
    (fun e he => by rw [isForbiddenAt_field he]; decide)
  have h4 := countP_eq_zero_of_field (p := isForbiddenAt ["spec"])
    (volumeAttributesClassErrs_field G n o opts)
    (fun e he => by rw [isForbiddenAt_field he]; decide)
  rw [validate_countP, h2, h3, h4, specImmutableErrs_eq]
  by_cases h : (newPvcCloneSpec n o).semanticEq (oldPvcCloneSpec n o) = true
  · simp [h]
  · simp [h, isForbiddenAt, Forbidden]

/-- With an empty old volume name, the comparison of the two clones does not
depend on the proposed volume name. -/
theorem clones_semanticEq_withVolumeName (n o : PersistentVolumeClaim) (v : String)
    (h0 : o.Spec.VolumeName = "") :
    (newPvcCloneSpec (withVolumeName n v) o).semanticEq (oldPvcCloneSpec (withVolumeName n v) o) =
      (newPvcCloneSpec n o).semanticEq (oldPvcCloneSpec n o) := by
  have hl : o.Spec.VolumeName.length = 0 := (string_length_eq_zero_iff _).mpr h0
  rw [Bool.eq_iff_iff, spec_semanticEq_iff, spec_semanticEq_iff]
  simp only [newPvcCloneSpec_eq, oldPvcCloneSpec_eq, hl, if_true]
  have hr : newCloneRequests (withVolumeName n v) o = newCloneRequests n o := rfl
  rw [hr]
  simp [withVolumeName]

/-- C14: in the subresource validation, when the old volume name is empty the
number of Forbidden errors at `spec` is the same for every proposed volume
name, and an update that only sets the volume name (and the storage class
name) gets none; when the old volume name is not empty, every different
proposed volume name, the empty one included, gets the Forbidden error at
`spec`. -/
theorem volumeName_settable_once (X : Externals) (G : FeatureGates)
    (n o : PersistentVolumeClaim) (opts : PersistentVolumeClaimSpecValidationOptions) :
    (o.Spec.VolumeName = "" → ∀ v : String,
      (validatePersistentVolumeClaimUpdateForStorageClassSubresource X G
          (withVolumeName n v) o opts).countP (isForbiddenAt ["spec"]) =
        (validatePersistentVolumeClaimUpdateForStorageClassSubresource X G n o opts).countP
          (isForbiddenAt ["spec"])) ∧
    (o.Spec.VolumeName = "" →
      (lookupEntry ResourceStorage o.Spec.Resources.Requests.entries).isSome = true →
      ∀ (v : String) (cls : Option String),
        specImmutableErrs X (withVolumeName (withStorageClass o cls) v) o = []) ∧
    (o.Spec.VolumeName ≠ "" → n.Spec.VolumeName ≠ o.Spec.VolumeName →
      Forbidden ["spec"] (specImmutableDetail X n o) ∈
        validatePersistentVolumeClaimUpdateForStorageClassSubresource X G n o opts) := by
  refine ⟨?_, ?_, ?_⟩
  · intro h0 v
    rw [validate_countP_spec, validate_countP_spec, clones_semanticEq_withVolumeName n o v h0]
    rfl
  · intro h0 hst v cls
    have hbase := specImmutableErrs_only_class X o cls hst
    rw [specImmutableErrs_eq] at hbase ⊢
    rw [clones_semanticEq_withVolumeName (withStorageClass o cls) o v h0]
    by_cases h : (newPvcCloneSpec (withStorageClass o cls) o).semanticEq
        (oldPvcCloneSpec (withStorageClass o cls) o) = true
    · rw [if_pos h]
    · rw [if_neg h] at hbase
      simp at hbase
  · intro h0 hne
    have hl : ¬ o.Spec.VolumeName.length = 0 := fun h => h0 ((string_length_eq_zero_iff _).mp h)
    have hspec : specImmutableErrs X n o = [Forbidden ["spec"] (specImmutableDetail X n o)] := by
      rw [specImmutableErrs_eq, if_neg]
      rw [spec_semanticEq_iff, newPvcCloneSpec_eq, oldPvcCloneSpec_eq]
      intro h
      have h5 := h.2.2.2.2.1
      simp only [if_neg hl] at h5
      exact hne h5
    simp only [validatePersistentVolumeClaimUpdateForStorageClassSubresource, hspec,
      List.mem_append, List.mem_singleton]
    tauto

/-- Witness of C14: the bound volume "existing-volume" cannot be renamed to
"new-volume". -/
theorem volumeName_settable_once_witness :
    Forbidden ["spec"]
        (specImmutableDetail exampleExternals
          (withVolumeName (claimWithClass "slow") "new-volume")
          (withVolumeName (claimWithClass "fast") "existing-volume")) ∈
      validatePersistentVolumeClaimUpdateForStorageClassSubresource exampleExternals gatesOff
        (withVolumeName (claimWithClass "slow") "new-volume")
        (withVolumeName (claimWithClass "fast") "existing-volume") (optsRecover false) :=
  (volumeName_settable_once exampleExternals gatesOff
    (withVolumeName (claimWithClass "slow") "new-volume")
    (withVolumeName (claimWithClass "fast") "existing-volume") (optsRecover false)).2.2
    (by decide) (by decide)

theorem lookupEntry_some_mem {β : Type} (k : String) (v : β) (es : List (String × β))
    (h : lookupEntry k es = some v) : ∃ e ∈ es, e.1 = k := by
  induction es with
  | nil => simp [lookupEntry] at h
  | cons hd t ih =>
    obtain ⟨k1, v1⟩ := hd
    by_cases hk : k1 = k
    · exact ⟨(k1, v1), List.mem_cons_self _ _, hk⟩
    · simp only [lookupEntry, if_neg hk] at h
      obtain ⟨e, he, hek⟩ := ih h
      exact ⟨e, List.mem_cons_of_mem _ he, hek⟩

theorem quantity_semanticEq_value (x y : Quantity) (h : x.semanticEq y = true) :
    x.value = y.value := by
  simp only [Quantity.semanticEq, decide_eq_true_eq, Quantity.Cmp] at h
  split_ifs at h <;> omega

/-- Requests maps that are semantically equal hold the same storage size. -/
theorem storageOf_value_of_semanticEq (a b : ResourceList)
    (h : GoMap.semanticEq Quantity.semanticEq a b = true) :
    (storageOf a).value = (storageOf b).value := by
  unfold GoMap.semanticEq at h
  rw [Bool.and_eq_true, List.all_eq_true, List.all_eq_true] at h
  obtain ⟨ha, hb⟩ := h
  cases hla : lookupEntry ResourceStorage a.entries with
  | some x =>
    obtain ⟨e, he, hek⟩ := lookupEntry_some_mem _ _ _ hla
    have h1 := ha e he
    rw [hek, hla] at h1
    cases hlb : lookupEntry ResourceStorage b.entries with
    | none => rw [hlb] at h1; simp at h1
    | some y =>
      rw [hlb] at h1
      rw [storageOf_of_lookup a x hla, storageOf_of_lookup b y hlb]
      exact quantity_semanticEq_value x y h1
  | none =>
    cases hlb : lookupEntry ResourceStorage b.entries with
    | none => simp [storageOf, GoMap.index, hla, hlb]
    | some y =>
      obtain ⟨e, he, hek⟩ := lookupEntry_some_mem _ _ _ hlb
      have h2 := hb e he
      rw [hek, hla] at h2
      simp at h2

theorem newCloneRequests_not_bound (n o : PersistentVolumeClaim)
    (hb : n.Status.Phase ≠ ClaimBound) :
    newCloneRequests n o = n.Spec.Resources.Requests := by
  unfold newCloneRequests
  simp [hb]

theorem mem_validate_of_clones_differ (X : Externals) (G : FeatureGates)
    (n o : PersistentVolumeClaim) (opts : PersistentVolumeClaimSpecValidationOptions)
    (h : ¬ (newPvcCloneSpec n o).semanticEq (oldPvcCloneSpec n o) = true) :
    Forbidden ["spec"] (specImmutableDetail X n o) ∈
      validatePersistentVolumeClaimUpdateForStorageClassSubresource X G n o opts := by
  have hspec : specImmutableErrs X n o = [Forbidden ["spec"] (specImmutableDetail X n o)] := by
    rw [specImmutableErrs_eq, if_neg h]
  simp only [validatePersistentVolumeClaimUpdateForStorageClassSubresource, hspec,
    List.mem_append, List.mem_singleton]
  tauto

/-- C15: the subresource validation adds the Forbidden error at `spec` exactly
when the two specs still differ semantically after the permitted exceptions are
absorbed: the old clone takes the proposed storage class name, and the
proposed volume name when the old one is empty; for a bound claim the new
clone takes the old storage request into a non-nil requests map and the old
attributes class name in place of a set one.  Hence changed access modes are
always refused, and so are a changed storage size and a changed attributes
class name on a claim that is not bound. -/
theorem spec_immutable_after_absorption (X : Externals) (G : FeatureGates)
    (n o : PersistentVolumeClaim) (opts : PersistentVolumeClaimSpecValidationOptions) :
    ((validatePersistentVolumeClaimUpdateForStorageClassSubresource X G n o opts).countP
        (isForbiddenAt ["spec"]) =
      (X.ValidateObjectMetaUpdate n.ObjectMeta o.ObjectMeta ["metadata"]).countP
        (isForbiddenAt ["spec"]) +
      (if (newPvcCloneSpec n o).semanticEq (oldPvcCloneSpec n o) = true then 0 else 1)) ∧
    (oldPvcCloneSpec n o =
      { o.Spec with
        VolumeName := if o.Spec.VolumeName.length = 0 then n.Spec.VolumeName
          else o.Spec.VolumeName,
        StorageClassName := n.Spec.StorageClassName }) ∧
    (newPvcCloneSpec n o =
      { n.Spec with
        Resources :=
          { n.Spec.Resources with
            Requests :=
              match decide (n.Status.Phase = ClaimBound), n.Spec.Resources.Requests with
              | true, some es =>
                some (assignEntry ResourceStorage (storageOf o.Spec.Resources.Requests) es)
              | _, _ => n.Spec.Resources.Requests },
        VolumeAttributesClassName :=
          if n.Status.Phase = ClaimBound ∧ n.Spec.VolumeAttributesClassName ≠ none then
            o.Spec.VolumeAttributesClassName
          else n.Spec.VolumeAttributesClassName }) ∧
    (n.Spec.AccessModes ≠ o.Spec.AccessModes →
      Forbidden ["spec"] (specImmutableDetail X n o) ∈
        validatePersistentVolumeClaimUpdateForStorageClassSubresource X G n o opts) ∧
    (n.Status.Phase ≠ ClaimBound →
      (storageOf n.Spec.Resources.Requests).value ≠
        (storageOf o.Spec.Resources.Requests).value →
      Forbidden ["spec"] (specImmutableDetail X n o) ∈
        validatePersistentVolumeClaimUpdateForStorageClassSubresource X G n o opts) ∧
    (n.Status.Phase ≠ ClaimBound →
      n.Spec.VolumeAttributesClassName ≠ o.Spec.VolumeAttributesClassName →
      Forbidden ["spec"] (specImmutableDetail X n o) ∈
        validatePersistentVolumeClaimUpdateForStorageClassSubresource X G n o opts) := by
  refine ⟨validate_countP_spec X G n o opts, oldPvcCloneSpec_eq n o, newPvcCloneSpec_eq n o,
    ?_, ?_, ?_⟩
  · intro hne
    apply mem_validate_of_clones_differ
    rw [spec_semanticEq_iff, newPvcCloneSpec_eq, oldPvcCloneSpec_eq]
    intro h
    exact hne h.1
  · intro hb hne
    apply mem_validate_of_clones_differ
    rw [spec_semanticEq_iff, newPvcCloneSpec_eq, oldPvcCloneSpec_eq]
    intro h
    have h4 := h.2.2.2.1
    simp only [newCloneRequests_not_bound n o hb] at h4
    exact hne (storageOf_value_of_semanticEq _ _ h4)
  · intro hb hne
    apply mem_validate_of_clones_differ
    rw [spec_semanticEq_iff, newPvcCloneSpec_eq, oldPvcCloneSpec_eq]
    intro h
    have h10 := h.2.2.2.2.2.2.2.2.2
    have hc : ¬ (n.Status.Phase = ClaimBound ∧ n.Spec.VolumeAttributesClassName ≠ none) :=
      fun hh => hb hh.1
    simp only [if_neg hc] at h10
    exact hne h10

/-- Witness of C15: a pending claim whose access mode goes from ReadWriteOnce
to ReadWriteMany is refused at `spec`. -/
theorem spec_immutable_after_absorption_witness :
    Forbidden ["spec"]
        (specImmutableDetail exampleExternals
          (withAccessModes (claimWithClass "slow") ["ReadWriteMany"]) (claimWithClass "fast")) ∈
      validatePersistentVolumeClaimUpdateForStorageClassSubresource exampleExternals gatesOff
        (withAccessModes (claimWithClass "slow") ["ReadWriteMany"]) (claimWithClass "fast")
        (optsRecover false) :=
  (spec_immutable_after_absorption exampleExternals gatesOff
    (withAccessModes (claimWithClass "slow") ["ReadWriteMany"]) (claimWithClass "fast")
    (optsRecover false)).2.2.2.1 (by decide)

/-! ### Data source reconciliation -/

theorem dataSourceIsPvcOrSnapshot_iff (ds : TypedLocalObjectReference) :
    dataSourceIsPvcOrSnapshot (some ds) = true ↔ TargetsPvcOrSnapshot ds := by
  simp [dataSourceIsPvcOrSnapshot, TargetsPvcOrSnapshot]

/-- The modelled helpers reproduce `TestPrepareForCreate`: every one of its 34
cases passes. -/
theorem prepareForCreate_test_table :
    prepareForCreateCases.length = 34 ∧
    prepareForCreateCases.all PrepareForCreateCase.passes = true := by
  decide

/-- C16: with the any-data-source gate off, after `Strategy.PrepareForCreate`
the data source reference is nil, a data source that targets a core-group
PersistentVolumeClaim or a snapshot.storage.k8s.io VolumeSnapshot is kept
unchanged, and a data source of any other kind is nil. -/
theorem prepareForCreate_any_disabled (G : FeatureGates) (obj : PersistentVolumeClaim)
    (hany : G.AnyVolumeDataSource = false) :
    (persistentvolumeclaimStrategy.PrepareForCreate G obj).Spec.DataSourceRef = none ∧
    (∀ ds, obj.Spec.DataSource = some ds → TargetsPvcOrSnapshot ds →
      (persistentvolumeclaimStrategy.PrepareForCreate G obj).Spec.DataSource = some ds) ∧
    (∀ ds, obj.Spec.DataSource = some ds → ¬ TargetsPvcOrSnapshot ds →
      (persistentvolumeclaimStrategy.PrepareForCreate G obj).Spec.DataSource = none) := by
  obtain ⟨any, xns, vacg, rec⟩ := G
  obtain ⟨tm, om, ⟨am, sel, res, vn, sc, vm, ds0, dsr, vacn⟩, st⟩ := obj
  simp only at hany
  subst hany
  refine ⟨?_, ?_, ?_⟩
  · cases vacg <;>
      simp [persistentvolumeclaimStrategy.PrepareForCreate, NormalizeDataSources,
        EnforceDataSourceBackwardsCompatibility, DropDisabledFields, dataSourceInUse,
        dataSourceRefInUse] <;>
      split_ifs <;> rfl
  · intro ds hds ht
    simp only at hds
    subst hds
    have hk := (dataSourceIsPvcOrSnapshot_iff ds).mpr ht
    cases vacg <;>
      simp [persistentvolumeclaimStrategy.PrepareForCreate, NormalizeDataSources,
        EnforceDataSourceBackwardsCompatibility, DropDisabledFields, dataSourceInUse,
        dataSourceRefInUse, hk]
  · intro ds hds ht
    simp only at hds
    subst hds
    have hk : dataSourceIsPvcOrSnapshot (some ds) = false := by
      rw [← Bool.not_eq_true]
      exact fun h => ht ((dataSourceIsPvcOrSnapshot_iff ds).mp h)
    cases vacg <;>
      simp [persistentvolumeclaimStrategy.PrepareForCreate, NormalizeDataSources,
        EnforceDataSourceBackwardsCompatibility, DropDisabledFields, dataSourceInUse,
        dataSourceRefInUse, hk]

/-- Witness of C16: the case "any disabled with generic ds" of
`TestPrepareForCreate`. -/
theorem prepareForCreate_any_disabled_witness :
    (persistentvolumeclaimStrategy.PrepareForCreate (gatesData false false)
      (claimWithSources (some (makeDataSource "generic.storage.k8s.io" "Generic" "my-foo"))
        none)).Spec.DataSource = none :=
  (prepareForCreate_any_disabled (gatesData false false)
    (claimWithSources (some (makeDataSource "generic.storage.k8s.io" "Generic" "my-foo")) none)
    rfl).2.2 (makeDataSource "generic.storage.k8s.io" "Generic" "my-foo") rfl (by decide)

theorem namesNamespace_none (ref : TypedObjectReference) (h : ref.Namespace = none) :
    ¬ NamesNamespace ref := by
  unfold NamesNamespace
  rw [h]
  exact fun hf => hf

theorem namesNamespace_some (ref : TypedObjectReference) (ns : String)
    (h : ref.Namespace = some ns) : NamesNamespace ref ↔ ns ≠ "" := by
  unfold NamesNamespace
  rw [h]

/-- C17 (as stated, refuted): the case "any enabled with generic ds" of
`TestPrepareForCreate`.  Only the data source is set, to a Generic target; after
`Strategy.PrepareForCreate` with the any-data-source gate on, both fields are
nil. -/
theorem prepareForCreate_generic_source_dropped :
    (persistentvolumeclaimStrategy.PrepareForCreate (gatesData true false)
      (claimWithSources (some (makeDataSource "generic.storage.k8s.io" "Generic" "my-foo"))
        none)).Spec.DataSource = none ∧
    (persistentvolumeclaimStrategy.PrepareForCreate (gatesData true false)
      (claimWithSources (some (makeDataSource "generic.storage.k8s.io" "Generic" "my-foo"))
        none)).Spec.DataSourceRef = none := by
  decide

/-- C17 (amended): with the any-data-source gate on and exactly one of the two
fields set, after `Strategy.PrepareForCreate` both fields are set and name the
same target (API group, kind and name; the legacy field has no namespace) when
the lone field is a data source that targets a PersistentVolumeClaim or a
VolumeSnapshot, or a reference that names no namespace.  A lone data source of
another kind is dropped, and a lone reference that names a namespace is not
copied: it is kept with the cross-namespace gate on and dropped with it off. -/
theorem prepareForCreate_any_enabled_one_set (G : FeatureGates) (obj : PersistentVolumeClaim)
    (hany : G.AnyVolumeDataSource = true) :
    (∀ ds, obj.Spec.DataSource = some ds → obj.Spec.DataSourceRef = none →
      TargetsPvcOrSnapshot ds →
      (persistentvolumeclaimStrategy.PrepareForCreate G obj).Spec.DataSource = some ds ∧
      (persistentvolumeclaimStrategy.PrepareForCreate G obj).Spec.DataSourceRef =
        some (refOfDataSource ds)) ∧
    (∀ ref, obj.Spec.DataSource = none → obj.Spec.DataSourceRef = some ref →
      ¬ NamesNamespace ref →
      (persistentvolumeclaimStrategy.PrepareForCreate G obj).Spec.DataSource =
        some (dataSourceOfRef ref) ∧
      (persistentvolumeclaimStrategy.PrepareForCreate G obj).Spec.DataSourceRef = some ref) ∧
    (∀ ds, obj.Spec.DataSource = some ds → obj.Spec.DataSourceRef = none →
      ¬ TargetsPvcOrSnapshot ds →
      (persistentvolumeclaimStrategy.PrepareForCreate G obj).Spec.DataSource = none ∧
      (persistentvolumeclaimStrategy.PrepareForCreate G obj).Spec.DataSourceRef = none) ∧
    (∀ ref, obj.Spec.DataSource = none → obj.Spec.DataSourceRef = some ref →
      NamesNamespace ref →
      (persistentvolumeclaimStrategy.PrepareForCreate G obj).Spec.DataSource = none ∧
      (persistentvolumeclaimStrategy.PrepareForCreate G obj).Spec.DataSourceRef =
        if G.CrossNamespaceVolumeDataSource = true then some ref else none) := by
  obtain ⟨any, xns, vacg, rec⟩ := G
  obtain ⟨tm, om, ⟨am, sel, res, vn, sc, vm, ds0, dsr, vacn⟩, st⟩ := obj
  simp only at hany
  subst hany
  refine ⟨?_, ?_, ?_, ?_⟩
  · intro ds hds href ht
    simp only at hds href
    subst hds href
    have hk := (dataSourceIsPvcOrSnapshot_iff ds).mpr ht
    cases vacg <;> cases xns <;>
      simp [persistentvolumeclaimStrategy.PrepareForCreate, NormalizeDataSources,
        EnforceDataSourceBackwardsCompatibility, DropDisabledFields, dataSourceInUse,
        dataSourceRefInUse, hk, refOfDataSource]
  · intro ref hds href hn
    simp only at hds href
    subst hds href
    obtain ⟨g, k, nm, nsp⟩ := ref
    cases nsp with
    | none =>
      cases vacg <;> cases xns <;>
        simp [persistentvolumeclaimStrategy.PrepareForCreate, NormalizeDataSources,
          EnforceDataSourceBackwardsCompatibility, DropDisabledFields, dataSourceInUse,
          dataSourceRefInUse, dataSourceOfRef]
    | some ns =>
      have hns : ns = "" := by
        by_contra hc
        exact hn ((namesNamespace_some _ ns rfl).mpr hc)
      subst hns
      cases vacg <;> cases xns <;>
        simp [persistentvolumeclaimStrategy.PrepareForCreate, NormalizeDataSources,
          EnforceDataSourceBackwardsCompatibility, DropDisabledFields, dataSourceInUse,
          dataSourceRefInUse, dataSourceOfRef]
  · intro ds hds href ht
    simp only at hds href
    subst hds href
    have hk : dataSourceIsPvcOrSnapshot (some ds) = false := by
      rw [← Bool.not_eq_true]
      exact fun h => ht ((dataSourceIsPvcOrSnapshot_iff ds).mp h)
    cases vacg <;> cases xns <;>
      simp [persistentvolumeclaimStrategy.PrepareForCreate, NormalizeDataSources,
        EnforceDataSourceBackwardsCompatibility, DropDisabledFields, dataSourceInUse,
        dataSourceRefInUse, hk]
  · intro ref hds href hn
    simp only at hds href
    subst hds href
    obtain ⟨g, k, nm, nsp⟩ := ref
    cases nsp with
    | none => exact absurd hn (namesNamespace_none _ rfl)
    | some ns =>
      have hns : ns ≠ "" := (namesNamespace_some _ ns rfl).mp hn
      have hlen : ¬ ns.length = 0 := fun h => hns ((string_length_eq_zero_iff ns).mp h)
      cases vacg <;> cases xns <;>
        simp [persistentvolumeclaimStrategy.PrepareForCreate, NormalizeDataSources,
          EnforceDataSourceBackwardsCompatibility, DropDisabledFields, dataSourceInUse,
          dataSourceRefInUse, dataSourceIsPvcOrSnapshot, hlen]

/-- Witness of C17 (amended): the case "any enabled with volume ds" of
`TestPrepareForCreate`. -/
theorem prepareForCreate_any_enabled_one_set_witness :
    (persistentvolumeclaimStrategy.PrepareForCreate (gatesData true false)
      (claimWithSources (some (makeDataSource "" "PersistentVolumeClaim" "my-vol"))
        none)).Spec.DataSourceRef =
      some (makeDataSourceRef "" "PersistentVolumeClaim" "my-vol" none) :=
  ((prepareForCreate_any_enabled_one_set (gatesData true false)
    (claimWithSources (some (makeDataSource "" "PersistentVolumeClaim" "my-vol")) none)
    rfl).1 (makeDataSource "" "PersistentVolumeClaim" "my-vol") rfl rfl (by decide)).2

/-- C19 (as stated, refuted): the any-data-source gate is on and the
cross-namespace gate off; the data source names the claim "my-vol" and the
reference names the snapshot "my-snap" in the namespace "ns1".  After
`Strategy.PrepareForCreate` the reference is no longer the one provided: it was
dropped and filled in again from the data source. -/
theorem prepareForCreate_namespaced_ref_replaced :
    (persistentvolumeclaimStrategy.PrepareForCreate (gatesData true false)
      (claimWithSources (some (makeDataSource "" "PersistentVolumeClaim" "my-vol"))
        (some (makeDataSourceRef "snapshot.storage.k8s.io" "VolumeSnapshot" "my-snap"
          (some "ns1"))))).Spec.DataSourceRef =
      some (makeDataSourceRef "" "PersistentVolumeClaim" "my-vol" none) ∧
    some (makeDataSourceRef "" "PersistentVolumeClaim" "my-vol" none) ≠
      some (makeDataSourceRef "snapshot.storage.k8s.io" "VolumeSnapshot" "my-snap"
        (some "ns1")) := by
  decide

/-- C19 (amended): with the any-data-source gate on, for every record in which
both fields are set and whose reference names no namespace, or with the
cross-namespace gate on as well, `Strategy.PrepareForCreate` leaves both fields
as provided, also when they name different targets. -/
theorem prepareForCreate_both_set_kept (G : FeatureGates) (obj : PersistentVolumeClaim)
    (ds : TypedLocalObjectReference) (ref : TypedObjectReference)
    (hany : G.AnyVolumeDataSource = true)
    (hds : obj.Spec.DataSource = some ds) (href : obj.Spec.DataSourceRef = some ref)
    (hns : G.CrossNamespaceVolumeDataSource = true ∨ ¬ NamesNamespace ref) :
    (persistentvolumeclaimStrategy.PrepareForCreate G obj).Spec.DataSource = some ds ∧
    (persistentvolumeclaimStrategy.PrepareForCreate G obj).Spec.DataSourceRef = some ref := by
  obtain ⟨any, xns, vacg, rec⟩ := G
  obtain ⟨tm, om, ⟨am, sel, res, vn, sc, vm, ds0, dsr, vacn⟩, st⟩ := obj
  simp only at hany hds href hns
  subst hany hds href
  obtain ⟨g, k, nm, nsp⟩ := ref
  cases nsp with
  | none =>
    cases vacg <;> cases xns <;>
      simp [persistentvolumeclaimStrategy.PrepareForCreate, NormalizeDataSources,
        EnforceDataSourceBackwardsCompatibility, DropDisabledFields, dataSourceInUse,
        dataSourceRefInUse]
  | some ns =>
    by_cases hempty : ns = ""
    · subst hempty
      cases vacg <;> cases xns <;>
        simp [persistentvolumeclaimStrategy.PrepareForCreate, NormalizeDataSources,
          EnforceDataSourceBackwardsCompatibility, DropDisabledFields, dataSourceInUse,
          dataSourceRefInUse]
    · have hx : xns = true := by
        rcases hns with h | h
        · exact h
        · exact absurd ((namesNamespace_some _ ns rfl).mpr hempty) h
      subst hx
      cases vacg <;>
        simp [persistentvolumeclaimStrategy.PrepareForCreate, NormalizeDataSources,
          EnforceDataSourceBackwardsCompatibility, DropDisabledFields, dataSourceInUse,
          dataSourceRefInUse]

/-- Witness of C19 (amended): the case "any enabled with mismatched data
sources" of `TestPrepareForCreate`. -/
theorem prepareForCreate_both_set_kept_witness :
    (persistentvolumeclaimStrategy.PrepareForCreate (gatesData true false)
      (claimWithSources (some (makeDataSource "" "PersistentVolumeClaim" "my-vol"))
        (some (makeDataSourceRef "snapshot.storage.k8s.io" "VolumeSnapshot" "my-snap"
          none)))).Spec.DataSourceRef =
      some (makeDataSourceRef "snapshot.storage.k8s.io" "VolumeSnapshot" "my-snap" none) :=
  (prepareForCreate_both_set_kept (gatesData true false)
    (claimWithSources (some (makeDataSource "" "PersistentVolumeClaim" "my-vol"))
      (some (makeDataSourceRef "snapshot.storage.k8s.io" "VolumeSnapshot" "my-snap" none)))
    (makeDataSource "" "PersistentVolumeClaim" "my-vol")
    (makeDataSourceRef "snapshot.storage.k8s.io" "VolumeSnapshot" "my-snap" none)
    rfl rfl rfl (Or.inr (by decide))).2

/-- C20 (as stated, refuted): the old record has no volume name and the
proposed record names "new-volume"; after `StorageClassStrategy.PrepareForUpdate`
the volume name is the empty one of the old record.  Likewise the bound claim
that proposes 20 units keeps the 10 units of the old record. -/
theorem storageClass_prepareForUpdate_drops_volumeName :
    (persistentvolumeclaimStorageClassStrategy.PrepareForUpdate
      (withVolumeName (claimWithClass "slow") "new-volume")
      (claimWithClass "fast")).1.Spec.VolumeName = "" ∧
    (persistentvolumeclaimStorageClassStrategy.PrepareForUpdate
      (withPhase (withRequests (claimWithClass "slow") (storageRequest 20)) ClaimBound)
      (withPhase (withRequests (claimWithClass "fast") (storageRequest 10)) ClaimBound)
      ).1.Spec.Resources.Requests = storageRequest 10 := by
  decide

/-- C20 (amended): on the storage-class path the reset collapses the permitted
exceptions too.  After `StorageClassStrategy.PrepareForUpdate` the volume name,
the resource requests and the attributes class name of the record are those of
the old record, whatever the caller proposed and whatever the phase; only the
storage class name is the proposed one. -/
theorem storageClass_prepareForUpdate_collapses (obj old : PersistentVolumeClaim) :
    (persistentvolumeclaimStorageClassStrategy.PrepareForUpdate obj old).1.Spec.VolumeName =
      old.Spec.VolumeName ∧
    (persistentvolumeclaimStorageClassStrategy.PrepareForUpdate obj old).1.Spec.Resources.Requests =
      old.Spec.Resources.Requests ∧
    (persistentvolumeclaimStorageClassStrategy.PrepareForUpdate obj
      old).1.Spec.VolumeAttributesClassName = old.Spec.VolumeAttributesClassName ∧
    (persistentvolumeclaimStorageClassStrategy.PrepareForUpdate obj old).1.Spec.StorageClassName =
      obj.Spec.StorageClassName := by
  simp [persistentvolumeclaimStorageClassStrategy.PrepareForUpdate]

/-- C18: data source reconciliation is idempotent.  For every record and every
setting of the feature gates, `Strategy.PrepareForCreate` applied twice gives
the record it gives when applied once; in particular the same data source and
the same data source reference. -/
theorem prepareForCreate_idempotent (G : FeatureGates) (obj : PersistentVolumeClaim) :
    persistentvolumeclaimStrategy.PrepareForCreate G
        (persistentvolumeclaimStrategy.PrepareForCreate G obj) =
      persistentvolumeclaimStrategy.PrepareForCreate G obj := by
  obtain ⟨any, xns, vacg, rec⟩ := G
  obtain ⟨tm, om, ⟨am, sel, res, vn, sc, vm, ds0, dsr, vacn⟩, st⟩ := obj
  cases ds0 with
  | none =>
    cases dsr with
    | none =>
      cases any <;> cases xns <;> cases vacg <;>
        simp [persistentvolumeclaimStrategy.PrepareForCreate, NormalizeDataSources,
          EnforceDataSourceBackwardsCompatibility, DropDisabledFields, dataSourceInUse,
          dataSourceRefInUse, dataSourceIsPvcOrSnapshot]
    | some ref =>
      obtain ⟨g, k, nm, nsp⟩ := ref
      cases nsp with
      | none =>
        cases any <;> cases xns <;> cases vacg <;>
          simp [persistentvolumeclaimStrategy.PrepareForCreate, NormalizeDataSources,
            EnforceDataSourceBackwardsCompatibility, DropDisabledFields, dataSourceInUse,
            dataSourceRefInUse, dataSourceIsPvcOrSnapshot]
      | some ns =>
        by_cases hempty : ns = ""
        · subst hempty
          cases any <;> cases xns <;> cases vacg <;>
            simp [persistentvolumeclaimStrategy.PrepareForCreate, NormalizeDataSources,
              EnforceDataSourceBackwardsCompatibility, DropDisabledFields, dataSourceInUse,
              dataSourceRefInUse, dataSourceIsPvcOrSnapshot]
        · have hlen : ¬ ns.length = 0 := fun h => hempty ((string_length_eq_zero_iff ns).mp h)
          cases any <;> cases xns <;> cases vacg <;>
            simp [persistentvolumeclaimStrategy.PrepareForCreate, NormalizeDataSources,
              EnforceDataSourceBackwardsCompatibility, DropDisabledFields, dataSourceInUse,
              dataSourceRefInUse, dataSourceIsPvcOrSnapshot, hlen]
  | some ds =>
    cases hk : dataSourceIsPvcOrSnapshot (some ds) <;>
    cases dsr with
    | none =>
      cases any <;> cases xns <;> cases vacg <;>
        simp [persistentvolumeclaimStrategy.PrepareForCreate, NormalizeDataSources,
          EnforceDataSourceBackwardsCompatibility, DropDisabledFields, dataSourceInUse,
          dataSourceRefInUse, hk]
    | some ref =>
      obtain ⟨g, k, nm, nsp⟩ := ref
      cases nsp with
      | none =>
        cases any <;> cases xns <;> cases vacg <;>
          simp [persistentvolumeclaimStrategy.PrepareForCreate, NormalizeDataSources,
            EnforceDataSourceBackwardsCompatibility, DropDisabledFields, dataSourceInUse,
            dataSourceRefInUse, hk]
      | some ns =>
        by_cases hempty : ns = ""
        · subst hempty
          cases any <;> cases xns <;> cases vacg <;>
            simp [persistentvolumeclaimStrategy.PrepareForCreate, NormalizeDataSources,
              EnforceDataSourceBackwardsCompatibility, DropDisabledFields, dataSourceInUse,
              dataSourceRefInUse, hk]
        · have hlen : ¬ ns.length = 0 := fun h => hempty ((string_length_eq_zero_iff ns).mp h)
          cases any <;> cases xns <;> cases vacg <;>
            simp [persistentvolumeclaimStrategy.PrepareForCreate, NormalizeDataSources,
              EnforceDataSourceBackwardsCompatibility, DropDisabledFields, dataSourceInUse,
              dataSourceRefInUse, hk, hlen]

/-! ### Reset fields, flags and selectable fields -/

/-- C21: the reset-field tables are fixed.  The main strategy has the one
version key `v1` with exactly the path `status`; the status strategy has the
one version key `v1` with exactly the path `spec`; the storage class strategy
returns the table of the main strategy. -/
theorem getResetFields_tables :
    (∀ k, (lookupEntry k persistentvolumeclaimStrategy.GetResetFields.entries).isSome = true ↔
      k = "v1") ∧
    (∀ p : Path, p ∈ persistentvolumeclaimStrategy.GetResetFields.index "v1" [] ↔
      p = ["status"]) ∧
    (∀ k, (lookupEntry k persistentvolumeclaimStatusStrategy.GetResetFields.entries).isSome
      = true ↔ k = "v1") ∧
    (∀ p : Path, p ∈ persistentvolumeclaimStatusStrategy.GetResetFields.index "v1" [] ↔
      p = ["spec"]) ∧
    persistentvolumeclaimStorageClassStrategy.GetResetFields =
      persistentvolumeclaimStrategy.GetResetFields ∧
    (∀ p : Path, p ∈ persistentvolumeclaimStorageClassStrategy.GetResetFields.index "v1" [] ↔
      p = ["status"]) := by
  refine ⟨?_, ?_, ?_, ?_, rfl, ?_⟩
  · intro k
    by_cases hk : "v1" = k
    · simp [persistentvolumeclaimStrategy.GetResetFields, GoMap.entries, lookupEntry, hk.symm]
    · have hk2 : ¬ k = "v1" := fun h => hk h.symm
      simp [persistentvolumeclaimStrategy.GetResetFields, GoMap.entries, lookupEntry, hk, hk2]
  · intro p
    simp [persistentvolumeclaimStrategy.GetResetFields, GoMap.index, GoMap.entries, lookupEntry,
      NewSet, MakePathOrDie]
  · intro k
    by_cases hk : "v1" = k
    · simp [persistentvolumeclaimStatusStrategy.GetResetFields, GoMap.entries, lookupEntry,
        hk.symm]
    · have hk2 : ¬ k = "v1" := fun h => hk h.symm
      simp [persistentvolumeclaimStatusStrategy.GetResetFields, GoMap.entries, lookupEntry, hk,
        hk2]
  · intro p
    simp [persistentvolumeclaimStatusStrategy.GetResetFields, GoMap.index, GoMap.entries,
      lookupEntry, NewSet, MakePathOrDie]
  · intro p
    simp [persistentvolumeclaimStorageClassStrategy.GetResetFields,
      persistentvolumeclaimStrategy.GetResetFields, GoMap.index, GoMap.entries, lookupEntry,
      NewSet, MakePathOrDie]

/-- C22: `AllowCreateOnUpdate` is false and `NamespaceScoped` is true for the
main strategy, the status strategy and the storage class strategy, and
`AllowUnconditionalUpdate` is true for the main strategy. -/
theorem strategy_flags :
    persistentvolumeclaimStrategy.AllowCreateOnUpdate = false ∧
    persistentvolumeclaimStatusStrategy.AllowCreateOnUpdate = false ∧
    persistentvolumeclaimStorageClassStrategy.AllowCreateOnUpdate = false ∧
    persistentvolumeclaimStrategy.NamespaceScoped = true ∧
    persistentvolumeclaimStatusStrategy.NamespaceScoped = true ∧
    persistentvolumeclaimStorageClassStrategy.NamespaceScoped = true ∧
    persistentvolumeclaimStrategy.AllowUnconditionalUpdate = true :=
  ⟨rfl, rfl, rfl, rfl, rfl, rfl, rfl⟩

/-- C23: the selectable fields of a claim bind `name` and `metadata.name` to the
name of the record and `metadata.namespace` to its namespace, and nothing else;
`GetAttrs` returns the labels of a claim together with that field set and no
error; it returns an error, with no labels and no fields, exactly when the
object is not a claim. -/
theorem getAttrs_selectable_fields :
    (∀ pvc : PersistentVolumeClaim,
      lookupEntry "name" (PersistentVolumeClaimToSelectableFields pvc).entries =
        some pvc.ObjectMeta.Name ∧
      lookupEntry "metadata.name" (PersistentVolumeClaimToSelectableFields pvc).entries =
        some pvc.ObjectMeta.Name ∧
      lookupEntry "metadata.namespace" (PersistentVolumeClaimToSelectableFields pvc).entries =
        some pvc.ObjectMeta.Namespace ∧
      (∀ k, (lookupEntry k (PersistentVolumeClaimToSelectableFields pvc).entries).isSome = true →
        k = "name" ∨ k = "metadata.name" ∨ k = "metadata.namespace")) ∧
    (∀ pvc : PersistentVolumeClaim,
      GetAttrs (RuntimeObject.claim pvc) =
        { labels := pvc.ObjectMeta.Labels,
          fields := PersistentVolumeClaimToSelectableFields pvc,
          err := none }) ∧
    (∀ obj : RuntimeObject,
      (GetAttrs obj).err.isSome = true ↔ ¬ ∃ pvc, obj = RuntimeObject.claim pvc) ∧
    (∀ obj : RuntimeObject, (GetAttrs obj).err.isSome = true →
      (GetAttrs obj).labels = none ∧ (GetAttrs obj).fields = none) := by
  refine ⟨?_, fun pvc => rfl, ?_, ?_⟩
  · intro pvc
    have hf : (PersistentVolumeClaimToSelectableFields pvc).entries =
        [("metadata.name", pvc.ObjectMeta.Name), ("metadata.namespace", pvc.ObjectMeta.Namespace),
          ("name", pvc.ObjectMeta.Name)] := by
      simp [PersistentVolumeClaimToSelectableFields, MergeFieldsSets, ObjectMetaFieldsSet,
        GoMap.entries, assignEntry]
    rw [hf]
    refine ⟨by simp [lookupEntry], by simp [lookupEntry], by simp [lookupEntry], ?_⟩
    intro k hk
    by_cases h1 : "metadata.name" = k
    · exact Or.inr (Or.inl h1.symm)
    · by_cases h2 : "metadata.namespace" = k
      · exact Or.inr (Or.inr h2.symm)
      · by_cases h3 : "name" = k
        · exact Or.inl h3.symm
        · simp [lookupEntry, h1, h2, h3] at hk
  · intro obj
    cases obj with
    | claim pvc => simp [GetAttrs]
    | other kind => simp [GetAttrs]
  · intro obj h
    cases obj with
    | claim pvc => simp [GetAttrs] at h
    | other kind => exact ⟨rfl, rfl⟩

/-! ### Accumulation of the checks -/

theorem storageSizeErrs_of_less_no_recovery (n o : PersistentVolumeClaim)
    (opts : PersistentVolumeClaimSpecValidationOptions)
    (hsize : (storageOf n.Spec.Resources.Requests).value <
      (storageOf o.Spec.Resources.Requests).value)
    (hrec : opts.EnableRecoverFromExpansionFailure = false) :
    storageSizeErrs n o opts =
      [Forbidden storageRequestPath "field can not be less than previous value"] := by
  unfold storageSizeErrs
  unfold storageOf at hsize
  simp only [quantity_cmp_neg_iff]
  rw [if_pos hsize]
  simp [hrec, NewPath, storageRequestPath]

/-- C24: the checks of `StorageClassStrategy.ValidateUpdate` accumulate.  The
result is the concatenation, in this order, of the storage-class-unchanged
error, the errors of the generic validator, those of the metadata validator,
and those of the immutability, size, volume mode and attributes class checks.
Each violated rule puts its error into its part, and a pair that keeps the
storage class name, lowers the storage request with recovery off and changes
the volume mode gets all four errors in one list. -/
theorem validateUpdate_accumulates (X : Externals) (G : FeatureGates)
    (obj old : PersistentVolumeClaim) :
    (persistentvolumeclaimStorageClassStrategy.ValidateUpdate X G obj old =
      (if old.Spec.StorageClassName = obj.Spec.StorageClassName then [storageClassNotChanging]
        else []) ++
      X.ValidatePersistentVolumeClaim obj
        (X.ValidationOptionsForPersistentVolumeClaim obj (some old)) ++
      X.ValidateObjectMetaUpdate obj.ObjectMeta old.ObjectMeta ["metadata"] ++
      specImmutableErrs X obj old ++
      storageSizeErrs obj old (X.ValidationOptionsForPersistentVolumeClaim obj (some old)) ++
      ValidateImmutableField obj.Spec.VolumeMode old.Spec.VolumeMode ["volumeMode"] ++
      volumeAttributesClassErrs G obj old
        (X.ValidationOptionsForPersistentVolumeClaim obj (some old))) ∧
    (¬ (newPvcCloneSpec obj old).semanticEq (oldPvcCloneSpec obj old) = true →
      specImmutableErrs X obj old = [Forbidden ["spec"] (specImmutableDetail X obj old)]) ∧
    ((storageOf obj.Spec.Resources.Requests).value <
        (storageOf old.Spec.Resources.Requests).value →
      (X.ValidationOptionsForPersistentVolumeClaim obj
        (some old)).EnableRecoverFromExpansionFailure = false →
      storageSizeErrs obj old (X.ValidationOptionsForPersistentVolumeClaim obj (some old)) =
        [Forbidden storageRequestPath "field can not be less than previous value"]) ∧
    (obj.Spec.VolumeMode ≠ old.Spec.VolumeMode →
      ValidateImmutableField obj.Spec.VolumeMode old.Spec.VolumeMode ["volumeMode"] =
        [Invalid ["volumeMode"] "field is immutable"]) ∧
    (old.Spec.StorageClassName = obj.Spec.StorageClassName →
      (storageOf obj.Spec.Resources.Requests).value <
        (storageOf old.Spec.Resources.Requests).value →
      (X.ValidationOptionsForPersistentVolumeClaim obj
        (some old)).EnableRecoverFromExpansionFailure = false →
      obj.Spec.VolumeMode ≠ old.Spec.VolumeMode →
      persistentvolumeclaimStorageClassStrategy.ValidateUpdate X G obj old =
        [storageClassNotChanging] ++
        X.ValidatePersistentVolumeClaim obj
          (X.ValidationOptionsForPersistentVolumeClaim obj (some old)) ++
        X.ValidateObjectMetaUpdate obj.ObjectMeta old.ObjectMeta ["metadata"] ++
        [Forbidden ["spec"] (specImmutableDetail X obj old),
          Forbidden storageRequestPath "field can not be less than previous value",
          Invalid ["volumeMode"] "field is immutable"] ++
        volumeAttributesClassErrs G obj old
          (X.ValidationOptionsForPersistentVolumeClaim obj (some old))) := by
  have hdecomp : persistentvolumeclaimStorageClassStrategy.ValidateUpdate X G obj old =
      (if old.Spec.StorageClassName = obj.Spec.StorageClassName then [storageClassNotChanging]
        else []) ++
      X.ValidatePersistentVolumeClaim obj
        (X.ValidationOptionsForPersistentVolumeClaim obj (some old)) ++
      X.ValidateObjectMetaUpdate obj.ObjectMeta old.ObjectMeta ["metadata"] ++
      specImmutableErrs X obj old ++
      storageSizeErrs obj old (X.ValidationOptionsForPersistentVolumeClaim obj (some old)) ++
      ValidateImmutableField obj.Spec.VolumeMode old.Spec.VolumeMode ["volumeMode"] ++
      volumeAttributesClassErrs G obj old
        (X.ValidationOptionsForPersistentVolumeClaim obj (some old)) := by
    simp only [persistentvolumeclaimStorageClassStrategy.ValidateUpdate,
      validatePersistentVolumeClaimUpdateForStorageClassSubresource, NewPath]
    split_ifs <;> simp [List.append_assoc]
  have hspec : ¬ (newPvcCloneSpec obj old).semanticEq (oldPvcCloneSpec obj old) = true →
      specImmutableErrs X obj old = [Forbidden ["spec"] (specImmutableDetail X obj old)] := by
    intro h
    rw [specImmutableErrs_eq, if_neg h]
  have hmodeErr : obj.Spec.VolumeMode ≠ old.Spec.VolumeMode →
      ValidateImmutableField obj.Spec.VolumeMode old.Spec.VolumeMode ["volumeMode"] =
        [Invalid ["volumeMode"] "field is immutable"] := by
    intro h
    rw [validateImmutableField_eq, if_neg h]
  refine ⟨hdecomp, hspec, storageSizeErrs_of_less_no_recovery obj old _, hmodeErr, ?_⟩
  intro hsc hsize hrec hmode
  have hclones : ¬ (newPvcCloneSpec obj old).semanticEq (oldPvcCloneSpec obj old) = true := by
    rw [spec_semanticEq_iff, newPvcCloneSpec_eq, oldPvcCloneSpec_eq]
    intro h
    exact hmode h.2.2.2.2.2.2.1
  rw [hdecomp, if_pos hsc, hspec hclones, storageSizeErrs_of_less_no_recovery obj old _ hsize hrec,
    hmodeErr hmode]
  simp [List.append_assoc]

/-- Witness of C24: a claim that keeps the class "fast", goes from 10 to 5
units and from Filesystem to Block gets the four errors in the fixed order. -/
theorem validateUpdate_accumulates_witness :
    (persistentvolumeclaimStorageClassStrategy.ValidateUpdate exampleExternals gatesOff
      (withVolumeMode (withRequests (claimWithClass "fast") (storageRequest 5)) (some "Block"))
      (withVolumeMode (withRequests (claimWithClass "fast") (storageRequest 10))
        (some "Filesystem"))).map (fun e => e.Field) =
    [["spec", "storageClassName"], ["spec"], ["spec", "resources", "requests", "storage"],
      ["volumeMode"]] :=
  (congrArg (List.map (fun e => e.Field))
    ((validateUpdate_accumulates exampleExternals gatesOff
      (withVolumeMode (withRequests (claimWithClass "fast") (storageRequest 5)) (some "Block"))
      (withVolumeMode (withRequests (claimWithClass "fast") (storageRequest 10))
        (some "Filesystem"))).2.2.2.2 (by decide) (by decide) (by decide) (by decide))).trans
    (by decide)

/-! ### The audit filter -/

/-- C25: the handler `WithDDOGAudits` returns adds the annotation
`audit.datadoghq.com/contentType`, with the value of the Content-Type response
header, exactly when the response header has a Content-Type entry at the time
of the call; it adds `audit.datadoghq.com/cipher`, with the name of the cipher
suite, exactly when the request has TLS state with a non-zero cipher suite; it
adds no other annotation; then it calls the wrapped handler, once, with the
same writer and request. -/
theorem withDDOGAudits_annotations {σ : Type} (E : AuditExternals σ) (handler : Handler σ)
    (w : ResponseWriter) (req : Request) (ctx : σ) :
    WithDDOGAudits E handler w req ctx =
      handler w req (addAnnotations E (ddogAnnotations E w req) ctx) ∧
    (∀ k v, (k, v) ∈ ddogAnnotations E w req ↔
      (k = "audit.datadoghq.com/contentType" ∧
        (lookupEntry "Content-Type" w.Header.entries).isSome = true ∧
        v = w.Header.Get "Content-Type") ∨
      (k = "audit.datadoghq.com/cipher" ∧
        ∃ tls, req.TLS = some tls ∧ tls.CipherSuite ≠ 0 ∧ v = E.CipherSuiteName tls.CipherSuite)) ∧
    (ddogAnnotations E w req).length ≤ 2 := by
  obtain ⟨hdr⟩ := w
  obtain ⟨tlsState⟩ := req
  refine ⟨?_, ?_, ?_⟩
  · cases hct : lookupEntry "Content-Type" (GoMap.entries hdr) <;> cases tlsState with
    | none => simp [WithDDOGAudits, ddogAnnotations, addAnnotations, hct]
    | some tls =>
      by_cases hc : tls.CipherSuite = 0
      · simp [WithDDOGAudits, ddogAnnotations, addAnnotations, hct, hc]
      · have hpos : tls.CipherSuite > 0 := Nat.pos_of_ne_zero hc
        simp [WithDDOGAudits, ddogAnnotations, addAnnotations, hct, hc, hpos]
  · intro k v
    cases hct : lookupEntry "Content-Type" (GoMap.entries hdr) <;> cases tlsState with
    | none => simp [ddogAnnotations, hct]
    | some tls =>
      by_cases hc : tls.CipherSuite = 0
      · simp [ddogAnnotations, hct, hc]
      · simp [ddogAnnotations, hct, hc]
  · cases hct : lookupEntry "Content-Type" (GoMap.entries hdr) <;> cases tlsState with
    | none => simp [ddogAnnotations, hct]
    | some tls =>
      by_cases hc : tls.CipherSuite = 0 <;> simp [ddogAnnotations, hct, hc]

/-- The four cases of `TestWithDDOGAudits`, with a handler that does nothing
and collaborators that record the annotations: cipher and content type, cipher
alone, neither, content type alone. -/
theorem withDDOGAudits_test_cases :
    WithDDOGAudits recordingAudit (fun _ _ c => c)
        { Header := some [("Content-Type", ["application/json"])] }
        { TLS := some { CipherSuite := 5 } } [] =
      [("audit.datadoghq.com/contentType", "application/json"),
        ("audit.datadoghq.com/cipher", "TLS_RSA_WITH_RC4_128_SHA")] ∧
    WithDDOGAudits recordingAudit (fun _ _ c => c)
        { Header := some [] } { TLS := some { CipherSuite := 5 } } [] =
      [("audit.datadoghq.com/cipher", "TLS_RSA_WITH_RC4_128_SHA")] ∧
    WithDDOGAudits recordingAudit (fun _ _ c => c)
        { Header := some [] } { TLS := none } [] = [] ∧
    WithDDOGAudits recordingAudit (fun _ _ c => c)
        { Header := some [("Content-Type", ["application/json"])] } { TLS := none } [] =
      [("audit.datadoghq.com/contentType", "application/json")] := by
  decide

/-! ### The main update path -/

theorem normalizeDataSources_frame (G : FeatureGates) (s : PersistentVolumeClaimSpec) :
    (NormalizeDataSources G s).AccessModes = s.AccessModes ∧
    (NormalizeDataSources G s).Selector = s.Selector ∧
    (NormalizeDataSources G s).Resources = s.Resources ∧
    (NormalizeDataSources G s).VolumeName = s.VolumeName ∧
    (NormalizeDataSources G s).StorageClassName = s.StorageClassName ∧
    (NormalizeDataSources G s).VolumeMode = s.VolumeMode ∧
    (NormalizeDataSources G s).VolumeAttributesClassName = s.VolumeAttributesClassName := by
  unfold NormalizeDataSources
  split_ifs
  · exact ⟨rfl, rfl, rfl, rfl, rfl, rfl, rfl⟩
  · split
    · exact ⟨rfl, rfl, rfl, rfl, rfl, rfl, rfl⟩
    · simp only []
      split_ifs <;> exact ⟨rfl, rfl, rfl, rfl, rfl, rfl, rfl⟩
    · exact ⟨rfl, rfl, rfl, rfl, rfl, rfl, rfl⟩

theorem enforceDataSource_frame (s : PersistentVolumeClaimSpec)
    (o : Option PersistentVolumeClaimSpec) :
    (EnforceDataSourceBackwardsCompatibility s o).AccessModes = s.AccessModes ∧
    (EnforceDataSourceBackwardsCompatibility s o).Selector = s.Selector ∧
    (EnforceDataSourceBackwardsCompatibility s o).Resources = s.Resources ∧
    (EnforceDataSourceBackwardsCompatibility s o).VolumeName = s.VolumeName ∧
    (EnforceDataSourceBackwardsCompatibility s o).StorageClassName = s.StorageClassName ∧
    (EnforceDataSourceBackwardsCompatibility s o).VolumeMode = s.VolumeMode ∧
    (EnforceDataSourceBackwardsCompatibility s o).VolumeAttributesClassName =
      s.VolumeAttributesClassName := by
  unfold EnforceDataSourceBackwardsCompatibility
  split_ifs <;> exact ⟨rfl, rfl, rfl, rfl, rfl, rfl, rfl⟩

theorem dropDisabledFields_frame (G : FeatureGates) (s : PersistentVolumeClaimSpec)
    (o : Option PersistentVolumeClaimSpec) :
    (DropDisabledFields G s o).AccessModes = s.AccessModes ∧
    (DropDisabledFields G s o).Selector = s.Selector ∧
    (DropDisabledFields G s o).Resources = s.Resources ∧
    (DropDisabledFields G s o).VolumeName = s.VolumeName ∧
    (DropDisabledFields G s o).StorageClassName = s.StorageClassName ∧
    (DropDisabledFields G s o).VolumeMode = s.VolumeMode := by
  unfold DropDisabledFields
  simp only []
  split_ifs <;> exact ⟨rfl, rfl, rfl, rfl, rfl, rfl⟩

/-- C26: the main `Strategy.PrepareForUpdate` changes the old record only in
the two data source fields of its spec, which it normalizes as on create; and
it leaves the proposed record as the caller supplied it outside the status and
the gated spec fields (data source, data source reference, attributes class
name). -/
theorem prepareForUpdate_frame (G : FeatureGates) (obj old : PersistentVolumeClaim) :
    ((persistentvolumeclaimStrategy.PrepareForUpdate G obj old).2.TypeMeta = old.TypeMeta ∧
      (persistentvolumeclaimStrategy.PrepareForUpdate G obj old).2.ObjectMeta = old.ObjectMeta ∧
      (persistentvolumeclaimStrategy.PrepareForUpdate G obj old).2.Status = old.Status ∧
      (persistentvolumeclaimStrategy.PrepareForUpdate G obj old).2.Spec =
        NormalizeDataSources G old.Spec ∧
      (persistentvolumeclaimStrategy.PrepareForUpdate G obj old).2.Spec.AccessModes =
        old.Spec.AccessModes ∧
      (persistentvolumeclaimStrategy.PrepareForUpdate G obj old).2.Spec.Selector =
        old.Spec.Selector ∧
      (persistentvolumeclaimStrategy.PrepareForUpdate G obj old).2.Spec.Resources =
        old.Spec.Resources ∧
      (persistentvolumeclaimStrategy.PrepareForUpdate G obj old).2.Spec.VolumeName =
        old.Spec.VolumeName ∧
      (persistentvolumeclaimStrategy.PrepareForUpdate G obj old).2.Spec.StorageClassName =
        old.Spec.StorageClassName ∧
      (persistentvolumeclaimStrategy.PrepareForUpdate G obj old).2.Spec.VolumeMode =
        old.Spec.VolumeMode ∧
      (persistentvolumeclaimStrategy.PrepareForUpdate G obj old).2.Spec.VolumeAttributesClassName =
        old.Spec.VolumeAttributesClassName) ∧
    ((persistentvolumeclaimStrategy.PrepareForUpdate G obj old).1.TypeMeta = obj.TypeMeta ∧
      (persistentvolumeclaimStrategy.PrepareForUpdate G obj old).1.ObjectMeta = obj.ObjectMeta ∧
      (persistentvolumeclaimStrategy.PrepareForUpdate G obj old).1.Spec.AccessModes =
        obj.Spec.AccessModes ∧
      (persistentvolumeclaimStrategy.PrepareForUpdate G obj old).1.Spec.Selector =
        obj.Spec.Selector ∧
      (persistentvolumeclaimStrategy.PrepareForUpdate G obj old).1.Spec.Resources =
        obj.Spec.Resources ∧
      (persistentvolumeclaimStrategy.PrepareForUpdate G obj old).1.Spec.VolumeName =
        obj.Spec.VolumeName ∧
      (persistentvolumeclaimStrategy.PrepareForUpdate G obj old).1.Spec.StorageClassName =
        obj.Spec.StorageClassName ∧
      (persistentvolumeclaimStrategy.PrepareForUpdate G obj old).1.Spec.VolumeMode =
        obj.Spec.VolumeMode) := by
  obtain ⟨n1, n2, n3, n4, n5, n6, n7⟩ := normalizeDataSources_frame G old.Spec
  refine ⟨⟨rfl, rfl, rfl, rfl, n1, n2, n3, n4, n5, n6, n7⟩, ?_⟩
  obtain ⟨d1, d2, d3, d4, d5, d6⟩ := dropDisabledFields_frame G obj.Spec (some old.Spec)
  obtain ⟨e1, e2, e3, e4, e5, e6, _⟩ :=
    enforceDataSource_frame (DropDisabledFields G obj.Spec (some old.Spec)) (some old.Spec)
  obtain ⟨m1, m2, m3, m4, m5, m6, _⟩ := normalizeDataSources_frame G
    (EnforceDataSourceBackwardsCompatibility (DropDisabledFields G obj.Spec (some old.Spec))
      (some old.Spec))
  refine ⟨rfl, rfl, ?_, ?_, ?_, ?_, ?_, ?_⟩
  · exact m1.trans (e1.trans d1)
  · exact m2.trans (e2.trans d2)
  · exact m3.trans (e3.trans d3)
  · exact m4.trans (e4.trans d4)
  · exact m5.trans (e5.trans d5)
  · exact m6.trans (e6.trans d6)

/-! ### Prepare, then validate, on the storage class path -/

/-- After the reset of the storage class path the two clones agree, unless the
claim is bound and its non-nil requests map has no storage entry. -/
theorem specImmutableErrs_after_reset (X : Externals) (old : PersistentVolumeClaim)
    (cls : Option String)
    (h : old.Status.Phase ≠ ClaimBound ∨ old.Spec.Resources.Requests = none ∨
      (lookupEntry ResourceStorage old.Spec.Resources.Requests.entries).isSome = true) :
    specImmutableErrs X (withStorageClass old cls) old = [] := by
  rcases h with hb | hnone | hst
  · rw [specImmutableErrs_eq, if_pos]
    rw [spec_semanticEq_iff, newPvcCloneSpec_eq, oldPvcCloneSpec_eq]
    have hb2 : (withStorageClass old cls).Status.Phase ≠ ClaimBound := hb
    rw [newCloneRequests_not_bound _ _ hb2]
    have hc : ¬ ((withStorageClass old cls).Status.Phase = ClaimBound ∧
        (withStorageClass old cls).Spec.VolumeAttributesClassName ≠ none) := fun hh => hb hh.1
    rw [if_neg hc]
    refine ⟨rfl, semanticEqPtr_refl _ labelSelector_semanticEq_refl _,
      goMap_semanticEq_refl _ quantity_semanticEq_refl _,
      goMap_semanticEq_refl _ quantity_semanticEq_refl _, ?_, rfl, rfl, rfl, rfl, rfl⟩
    show old.Spec.VolumeName = _
    split_ifs <;> rfl
  · rw [specImmutableErrs_eq, if_pos]
    rw [spec_semanticEq_iff, newPvcCloneSpec_eq, oldPvcCloneSpec_eq]
    have hr : newCloneRequests (withStorageClass old cls) old = old.Spec.Resources.Requests := by
      unfold newCloneRequests
      simp [withStorageClass, hnone]
    rw [hr]
    refine ⟨rfl, semanticEqPtr_refl _ labelSelector_semanticEq_refl _,
      goMap_semanticEq_refl _ quantity_semanticEq_refl _,
      goMap_semanticEq_refl _ quantity_semanticEq_refl _, ?_, rfl, rfl, rfl, rfl, ?_⟩
    · show old.Spec.VolumeName = _
      split_ifs <;> rfl
    · show (if _ then _ else old.Spec.VolumeAttributesClassName) = _
      split_ifs <;> rfl
  · exact specImmutableErrs_only_class X old cls hst

/-- Prepare and validate compose on the storage class path whenever the old
record is not a bound claim with a non-nil requests map that lacks the storage
entry: the validation then adds nothing to the errors of the metadata
validator. -/
theorem prepare_then_validate_clean (X : Externals) (G : FeatureGates)
    (obj old : PersistentVolumeClaim) (opts : PersistentVolumeClaimSpecValidationOptions)
    (h : old.Status.Phase ≠ ClaimBound ∨ old.Spec.Resources.Requests = none ∨
      (lookupEntry ResourceStorage old.Spec.Resources.Requests.entries).isSome = true) :
    validatePersistentVolumeClaimUpdateForStorageClassSubresource X G
        (persistentvolumeclaimStorageClassStrategy.PrepareForUpdate obj old).1
        (persistentvolumeclaimStorageClassStrategy.PrepareForUpdate obj old).2 opts =
      X.ValidateObjectMetaUpdate old.ObjectMeta old.ObjectMeta ["metadata"] := by
  have h1 := specImmutableErrs_after_reset X old obj.Spec.StorageClassName h
  have h2 : storageSizeErrs (withStorageClass old obj.Spec.StorageClassName) old opts = [] :=
    storageSizeErrs_of_not_less _ _ _ (lt_irrefl _)
  have h3 : ValidateImmutableField
      (withStorageClass old obj.Spec.StorageClassName).Spec.VolumeMode old.Spec.VolumeMode
      ["volumeMode"] = [] := by
    rw [validateImmutableField_eq]
    exact if_pos rfl
  have h4 : volumeAttributesClassErrs G (withStorageClass old obj.Spec.StorageClassName) old opts
      = [] := volumeAttributesClassErrs_of_same G _ old opts rfl
  show validatePersistentVolumeClaimUpdateForStorageClassSubresource X G
    (withStorageClass old obj.Spec.StorageClassName) old opts = _
  simp only [validatePersistentVolumeClaimUpdateForStorageClassSubresource, h1, h2, h3, h4,
    NewPath, List.append_nil]
  rfl

set_option maxRecDepth 8000 in
/-- C27 (the code at the failing input): the old record is a bound claim whose
requests map is not nil and has no storage entry; the record that
`StorageClassStrategy.PrepareForUpdate` makes of it, checked against the same
old record, gets the Forbidden error at `spec`, because the check writes a zero
storage request into the new clone only. -/
theorem prepare_then_validate_spec_error :
    validatePersistentVolumeClaimUpdateForStorageClassSubresource exampleExternals gatesOff
      (persistentvolumeclaimStorageClassStrategy.PrepareForUpdate
        (claimWithClass "slow")
        (withPhase (withRequests (claimWithClass "fast") (some [])) ClaimBound)).1
      (persistentvolumeclaimStorageClassStrategy.PrepareForUpdate
        (claimWithClass "slow")
        (withPhase (withRequests (claimWithClass "fast") (some [])) ClaimBound)).2
      (optsRecover false) =
    [Forbidden ["spec"]
      (specImmutableDetail exampleExternals
        (withStorageClass (withPhase (withRequests (claimWithClass "fast") (some [])) ClaimBound)
          (some "slow"))
        (withPhase (withRequests (claimWithClass "fast") (some [])) ClaimBound))] ∧
    (newPvcCloneSpec
        (withStorageClass (withPhase (withRequests (claimWithClass "fast") (some [])) ClaimBound)
          (some "slow"))
        (withPhase (withRequests (claimWithClass "fast") (some [])) ClaimBound)
      ).Resources.Requests = some [(ResourceStorage, Quantity.zero)] ∧
    (oldPvcCloneSpec
        (withStorageClass (withPhase (withRequests (claimWithClass "fast") (some [])) ClaimBound)
          (some "slow"))
        (withPhase (withRequests (claimWithClass "fast") (some [])) ClaimBound)
      ).Resources.Requests = some [] := by
  decide

/-! ### The number of attributes class errors -/

theorem volumeAttributesClassErrs_length (G : FeatureGates) (n o : PersistentVolumeClaim)
    (opts : PersistentVolumeClaimSpecValidationOptions) :
    (volumeAttributesClassErrs G n o opts).length =
      (if o.Spec.VolumeAttributesClassName ≠ n.Spec.VolumeAttributesClassName ∧
          G.VolumeAttributesClass = false then 1 else 0) +
      (if o.Spec.VolumeAttributesClassName ≠ n.Spec.VolumeAttributesClassName ∧
          opts.EnableVolumeAttributesClass = true ∧
          o.Spec.VolumeAttributesClassName ≠ none ∧
          (n.Spec.VolumeAttributesClassName = none ∨
            n.Spec.VolumeAttributesClassName = some "")
       then 1 else 0) := by
  unfold volumeAttributesClassErrs
  cases hG : G.VolumeAttributesClass <;> cases hO : opts.EnableVolumeAttributesClass <;>
  cases ho : o.Spec.VolumeAttributesClassName with
  | none => cases hn : n.Spec.VolumeAttributesClassName <;> simp
  | some a =>
    cases hn : n.Spec.VolumeAttributesClassName with
    | none => simp
    | some b =>
      by_cases hab : a = b
      · simp [hab]
      · by_cases hb : b = ""
        · subst hb
          simp [hab]
        · have hlen : ¬ b.length = 0 := fun h => hb ((string_length_eq_zero_iff b).mp h)
          simp [hab, hb, hlen]

theorem countP_eq_length_of_all {l : ErrorList} {p : FieldError → Bool}
    (h : ∀ e ∈ l, p e = true) : l.countP p = l.length := by
  rw [List.countP_eq_length]
  exact h

/-- C28 (as stated, refuted): the feature gate is off, the validation option is
on, and the attributes class name goes from "gold" to nil; the subresource
validation reports two Forbidden errors at `spec.volumeAttributesClassName`. -/
theorem volumeAttributesClass_two_errors :
    (validatePersistentVolumeClaimUpdateForStorageClassSubresource exampleExternals gatesOff
      (withVolumeAttributesClass (claimWithClass "slow") none)
      (withVolumeAttributesClass (claimWithClass "fast") (some "gold"))
      (optsClass true)).countP (isForbiddenAt volumeAttributesClassPath) = 2 := by
  decide

/-- C28 (amended): the subresource validation reports at most two Forbidden
errors at `spec.volumeAttributesClassName`: one when the name changes while the
feature gate is off, and one when the name changes while the validation option
is on and the old name is set and the new one is nil or the empty string.  It
reports at most one when the gate is on or the option is off. -/
theorem volumeAttributesClass_error_count (X : Externals) (G : FeatureGates)
    (n o : PersistentVolumeClaim) (opts : PersistentVolumeClaimSpecValidationOptions) :
    ((validatePersistentVolumeClaimUpdateForStorageClassSubresource X G n o opts).countP
        (isForbiddenAt volumeAttributesClassPath) =
      (X.ValidateObjectMetaUpdate n.ObjectMeta o.ObjectMeta ["metadata"]).countP
        (isForbiddenAt volumeAttributesClassPath) +
      ((if o.Spec.VolumeAttributesClassName ≠ n.Spec.VolumeAttributesClassName ∧
          G.VolumeAttributesClass = false then 1 else 0) +
       (if o.Spec.VolumeAttributesClassName ≠ n.Spec.VolumeAttributesClassName ∧
          opts.EnableVolumeAttributesClass = true ∧
          o.Spec.VolumeAttributesClassName ≠ none ∧
          (n.Spec.VolumeAttributesClassName = none ∨
            n.Spec.VolumeAttributesClassName = some "")
        then 1 else 0))) ∧
    ((validatePersistentVolumeClaimUpdateForStorageClassSubresource X G n o opts).countP
        (isForbiddenAt volumeAttributesClassPath) ≤
      (X.ValidateObjectMetaUpdate n.ObjectMeta o.ObjectMeta ["metadata"]).countP
        (isForbiddenAt volumeAttributesClassPath) + 2) ∧
    (G.VolumeAttributesClass = true ∨ opts.EnableVolumeAttributesClass = false →
      (validatePersistentVolumeClaimUpdateForStorageClassSubresource X G n o opts).countP
          (isForbiddenAt volumeAttributesClassPath) ≤
        (X.ValidateObjectMetaUpdate n.ObjectMeta o.ObjectMeta ["metadata"]).countP
          (isForbiddenAt volumeAttributesClassPath) + 1) := by
  have h1 := countP_eq_zero_of_field (p := isForbiddenAt volumeAttributesClassPath)
    (specImmutableErrs_field X n o)
    (fun e he => by rw [isForbiddenAt_field he]; decide)
  have h2 := countP_eq_zero_of_field (p := isForbiddenAt volumeAttributesClassPath)
    (fun e he => (storageSizeErrs_field n o opts e he).1)
    (fun e he => by rw [isForbiddenAt_field he]; decide)
  have h3 := countP_eq_zero_of_field (p := isForbiddenAt volumeAttributesClassPath)
    (fun e he => (validateImmutableField_field n.Spec.VolumeMode o.Spec.VolumeMode
      ["volumeMode"] e he).1)
    (fun e he => by rw [isForbiddenAt_field he]; decide)
  have h4 : (volumeAttributesClassErrs G n o opts).countP
      (isForbiddenAt volumeAttributesClassPath) = (volumeAttributesClassErrs G n o opts).length :=
    countP_eq_length_of_all (fun e he => by
      simp only [isForbiddenAt, decide_eq_true_eq]
      exact ⟨volumeAttributesClassErrs_forbidden G n o opts e he,
        volumeAttributesClassErrs_field G n o opts e he⟩)
  have hcount := validate_countP X G n o opts (isForbiddenAt volumeAttributesClassPath)
  rw [h1, h2, h3, h4, volumeAttributesClassErrs_length] at hcount
  refine ⟨by rw [hcount]; omega, ?_, ?_⟩
  · rw [hcount]
    split_ifs <;> omega
  · intro hor
    rw [hcount]
    rcases hor with hG | hO
    · have : ¬ (o.Spec.VolumeAttributesClassName ≠ n.Spec.VolumeAttributesClassName ∧
          G.VolumeAttributesClass = false) := fun hh => by simp [hG] at hh
      rw [if_neg this]
      split_ifs <;> omega
    · have : ¬ (o.Spec.VolumeAttributesClassName ≠ n.Spec.VolumeAttributesClassName ∧
          opts.EnableVolumeAttributesClass = true ∧
          o.Spec.VolumeAttributesClassName ≠ none ∧
          (n.Spec.VolumeAttributesClassName = none ∨
            n.Spec.VolumeAttributesClassName = some "")) := fun hh => by simp [hO] at hh
      rw [if_neg this]
      split_ifs <;> omega

/-- Witness of C28 (amended): with the gate on, the change from "gold" to nil
gets one error. -/
theorem volumeAttributesClass_error_count_witness :
    (validatePersistentVolumeClaimUpdateForStorageClassSubresource exampleExternals
      { gatesOff with VolumeAttributesClass := true }
      (withVolumeAttributesClass (claimWithClass "slow") none)
      (withVolumeAttributesClass (claimWithClass "fast") (some "gold"))
      (optsClass true)).countP (isForbiddenAt volumeAttributesClassPath) ≤ 0 + 1 :=
  (volumeAttributesClass_error_count exampleExternals
    { gatesOff with VolumeAttributesClass := true }
    (withVolumeAttributesClass (claimWithClass "slow") none)
    (withVolumeAttributesClass (claimWithClass "fast") (some "gold"))
    (optsClass true)).2.2 (Or.inl rfl)

end K8s
